import Mathlib

/-!
# Verification of the scene validator (`scene_validator.py`)

Shallow embedding of the AppDaemon scene-activation validator: the
comparator, the actuator translation, the inventory/identity lookups,
the gating layer (debounce, rate limits, circuit breaker) and the
three-level escalation engine, together with theorems about the
behaviours claimed in the specification.

Timestamps and all tolerance arithmetic are modelled over `ℚ`
(Python floats are wall-clock seconds and percentages; none of the
verified properties depend on binary rounding of the host floats).
Python `dict`s are modelled as association lists in insertion order,
`None`/falsy checks are translated explicitly at each use site.
-/

set_option maxHeartbeats 1000000

set_option allowUnsafeReducibility true

attribute [semireducible] Rat.add Rat.sub Rat.mul Rat.div Rat.inv Rat.neg Rat.floor Rat.ceil

/-- Failure classes appended to `last_validation_failures`. -/
inductive FailureClass
  | on_off
  | brightness
  | color
  | color_temp
deriving DecidableEq, Repr

/-- Expected chromaticity coordinates `expected['color']['xy']`. -/
structure HueXY where
  x : ℚ
  y : ℚ
deriving DecidableEq, Repr

/-- The `action` dict of one scene action: desired light state.
`on` is `expected.get('on', {}).get('on', False)`.
`brightness` is `some b` when `expected['dimming']` is truthy and holds
a `'brightness'` key.  `xy` is `some` when `expected['color']` is truthy
and holds an `'xy'` key.  `colorTemperature` is `some ct?` when the
`'color_temperature'` key is present with a truthy value; `ct?` is the
optional `'mirek'` entry of that dict. -/
structure ExpectedAction where
  isOn : Bool
  brightness : Option ℚ
  xy : Option HueXY
  colorTemperature : Option (Option ℚ)
deriving DecidableEq, Repr

/-- Observed Home-Assistant light state, as read by
`get_state(entity_id, attribute="all")`.
`stateOn` is `actual_state.get('state') == 'on'`.
`brightness` is the optional `attributes['brightness']` (native 0–255).
`xyColor` is `attributes.get('xy_color')` (`some` = truthy list).
`colorTemp` is `attributes.get('color_temp')` (a value `0` is falsy). -/
structure ActualState where
  stateOn : Bool
  brightness : Option ℚ
  xyColor : Option (ℚ × ℚ)
  colorTemp : Option ℚ
deriving DecidableEq, Repr

/-- Configuration of the validator app (`self.args`), restricted to the
fields the verified code paths read.  `name_patterns` carries the
compiled regex matchers abstractly as string predicates. -/
structure Config where
  transition_delay : ℚ
  validation_delay : ℚ
  validation_debounce : ℚ
  level3_settle_delay : ℚ
  max_validations_per_minute : ℕ
  max_validations_per_scene_per_minute : ℕ
  cb_failure_threshold : ℕ
  cb_success_threshold : ℕ
  cb_timeout : ℚ
  include_labels : List String
  exclude_labels : List String
  exclude_uids : List String
  name_patterns : List (String → Bool)
  brightness_tolerance : ℚ
  color_tolerance : ℚ
  color_temp_tolerance : ℚ

/-- Python's builtin `abs` on rationals (executable form). -/
def pyAbs (q : ℚ) : ℚ := if q < 0 then -q else q

theorem pyAbs_eq_abs (q : ℚ) : pyAbs q = |q| := by
  unfold pyAbs
  by_cases h : q < 0
  · simp [h, abs_of_neg h]
  · simp [h, abs_of_nonneg (le_of_not_lt h)]

/-- Color-temperature comparison step of `compare_light_states`
(the `'color_temperature' in expected` block).  `none` models the
`TypeError` raised when `mirek` is absent (`expected_ct` is `None`)
while the observed `color_temp` is truthy. -/
def compare_ct_step (cfg : Config) (expected : ExpectedAction)
    (actual : ActualState) : Option (Bool × List FailureClass) :=
  match expected.colorTemperature with
  | none => some (true, [])
  | some mirek? =>
    match actual.colorTemp with
    | none => some (true, [])
    | some actual_ct =>
      if actual_ct = 0 then some (true, [])
      else
        match mirek? with
        | none => none
        | some expected_ct =>
          if cfg.color_temp_tolerance < pyAbs (expected_ct - actual_ct) then
            some (false, [FailureClass.color_temp])
          else
            some (true, [])

/-- XY-color comparison step of `compare_light_states`
(the `expected_color and 'xy' in expected_color` block). -/
def compare_color_step (cfg : Config) (expected : ExpectedAction)
    (actual : ActualState) : Option (Bool × List FailureClass) :=
  match expected.xy with
  | none => compare_ct_step cfg expected actual
  | some exy =>
    match actual.xyColor with
    | none => compare_ct_step cfg expected actual
    | some axy =>
      if cfg.color_tolerance < pyAbs (exy.x - axy.1) ∨
         cfg.color_tolerance < pyAbs (exy.y - axy.2) then
        some (false, [FailureClass.color])
      else
        compare_ct_step cfg expected actual

/-- Brightness comparison step of `compare_light_states`
(the `expected_dimming and 'brightness' in expected_dimming` block).
The observed native value defaults to `0` (`actual_attrs.get('brightness', 0)`)
and is normalised to percent as `(actual_brightness / 255) * 100`. -/
def compare_brightness_step (cfg : Config) (expected : ExpectedAction)
    (actual : ActualState) : Option (Bool × List FailureClass) :=
  match expected.brightness with
  | none => compare_color_step cfg expected actual
  | some expected_brightness =>
    let actual_brightness := actual.brightness.getD 0
    let actual_brightness_pct := actual_brightness / 255 * 100
    if cfg.brightness_tolerance < pyAbs (expected_brightness - actual_brightness_pct) then
      some (false, [FailureClass.brightness])
    else
      compare_color_step cfg expected actual

/-- `compare_light_states(entity_id, expected, actual_state)`: tolerance
comparison of one light.  Returns the match result together with the
classes appended to `self.last_validation_failures` during the call;
`none` models an exception escaping the function. -/
def compare_light_states (cfg : Config) (expected : ExpectedAction)
    (actual : ActualState) : Option (Bool × List FailureClass) :=
  if expected.isOn ≠ actual.stateOn then
    some (false, [FailureClass.on_off])
  else if expected.isOn = false then
    some (true, [])
  else
    compare_brightness_step cfg expected actual

/-- A default configuration matching the documented defaults. -/
def defaultConfig : Config where
  transition_delay := 5
  validation_delay := 2
  validation_debounce := 30
  level3_settle_delay := 2
  max_validations_per_minute := 20
  max_validations_per_scene_per_minute := 5
  cb_failure_threshold := 5
  cb_success_threshold := 2
  cb_timeout := 300
  include_labels := []
  exclude_labels := []
  exclude_uids := []
  name_patterns := []
  brightness_tolerance := 5
  color_tolerance := 1/100
  color_temp_tolerance := 50

example :
    compare_light_states defaultConfig
      ⟨true, some 80, none, none⟩ ⟨true, some 204, none, none⟩ =
      some (true, []) := by decide

example :
    compare_light_states defaultConfig
      ⟨true, some 80, none, none⟩ ⟨true, some 178, none, none⟩ =
      some (false, [FailureClass.brightness]) := by decide

example :
    compare_light_states defaultConfig
      ⟨true, some 80, none, some (some 366)⟩ ⟨true, some 204, none, some 420⟩ =
      some (false, [FailureClass.color_temp]) := by decide

/-- One entry of a scene's `actions[]` list: either the legacy opaque
string form or the structured form with `target.rid` and `action`. -/
inductive HueAction
  | legacy (repr : String)
  | structured (rid : Option String) (action : ExpectedAction)
deriving DecidableEq, Repr

/-- One scene of `resources.scenes.items` in an inventory file. -/
structure Scene where
  id : String
  actions : List HueAction
deriving DecidableEq, Repr

/-- `_is_legacy_action_format(actions)`:
`len(actions) > 0 and isinstance(actions[0], str)`. -/
def is_legacy_action_format : List HueAction → Bool
  | [] => false
  | HueAction.legacy _ :: _ => true
  | HueAction.structured _ _ :: _ => false

/-- Substring containment, modelling Python's `t in s`. -/
def strContainsSub (s t : String) : Bool :=
  s.toList.tails.any (fun l => t.toList.isPrefixOf l)

/-- The collaborating read-only state: the entity-registry mapping
`hue_id_to_entity_id` (`unique_id → entity_id`, in insertion order) and
the loaded inventories (each reduced to its `resources.scenes.items`),
plus the configuration. -/
structure World where
  reg : List (String × String)
  inventories : List (List Scene)
  cfg : Config

/-- `get_entity_id_from_hue_id(hue_resource_id)`: exact key match in the
registry cache first, then the first entry whose `unique_id` ends with
the resource id or contains it after a `_` or `-` delimiter. -/
def get_entity_id_from_hue_id (reg : List (String × String))
    (hue_resource_id : String) : Option String :=
  match reg.lookup hue_resource_id with
  | some entity_id => some entity_id
  | none =>
    match reg.find? (fun p =>
        hue_resource_id.toList.isSuffixOf p.1.toList ||
        strContainsSub p.1 ("_" ++ hue_resource_id) ||
        strContainsSub p.1 ("-" ++ hue_resource_id)) with
    | some p => some p.2
    | none => none

/-- `find_scene_in_inventory(entity_id)`: reverse-lookup the Hue scene id
through the registry cache (first mapping whose entity matches), then
search all inventories for a scene with exactly that id.  A falsy
(empty) unique id is treated as a miss, as is an id absent from every
inventory. -/
def find_scene_in_inventory (w : World) (entity_id : String) : Option Scene :=
  match w.reg.find? (fun p => p.2 == entity_id) with
  | none => none
  | some p =>
    if p.1 = "" then none
    else w.inventories.flatten.find? (fun scene => scene.id == p.1)

/-- The per-light loop body of `validate_scene_state`: walks the action
list carrying `all_match` and the failures appended so far.  A legacy
string element raises `AttributeError` at `action.get('target')`, caught
by the enclosing handler which returns `False` (failures appended by
earlier lights remain recorded).  A `TypeError` escaping
`compare_light_states` is caught the same way. -/
def validate_actions (w : World) (stateOf : String → Option ActualState) :
    List HueAction → Bool → List FailureClass → Bool × List FailureClass
  | [], all_match, fs => (all_match, fs)
  | HueAction.legacy _ :: _, _, fs => (false, fs)
  | HueAction.structured rid action :: rest, all_match, fs =>
    match rid with
    | none => validate_actions w stateOf rest all_match fs
    | some r =>
      if r = "" then validate_actions w stateOf rest all_match fs
      else
        match get_entity_id_from_hue_id w.reg r with
        | none => validate_actions w stateOf rest false fs
        | some entity_id =>
          match stateOf entity_id with
          | none => validate_actions w stateOf rest false fs
          | some actual_state =>
            match compare_light_states w.cfg action actual_state with
            | none => (false, fs)
            | some (ok, appended) =>
              validate_actions w stateOf rest (all_match && ok) (fs ++ appended)

/-- `validate_scene_state(scene_entity, scene_data)`: `False` for an
empty or legacy action list, otherwise the per-light loop.  The second
component is the content of `last_validation_failures` after the call
(the caller resets it to `[]` beforehand). -/
def validate_scene_state (w : World) (stateOf : String → Option ActualState)
    (scene_data : Scene) : Bool × List FailureClass :=
  if scene_data.actions.isEmpty then (false, [])
  else if is_legacy_action_format scene_data.actions then (false, [])
  else validate_actions w stateOf scene_data.actions true []

/-- `only_color_temp_failed`: the failure list is non-empty and every
entry is `color_temp` (lines 533-536 and 618-621). -/
def only_color_temp_failed (failures : List FailureClass) : Bool :=
  decide (0 < failures.length) &&
    failures.all (fun failure => failure = FailureClass.color_temp)

/-- Python's `int()` on a rational: truncation toward zero. -/
def pyInt (q : ℚ) : ℤ := if 0 ≤ q then q.floor else q.ceil

/-- A Home-Assistant service call issued by the validator. -/
inductive ServiceCall
  | sceneTurnOn (entity_id : String)
  | lightTurnOff (entity_id : String)
  | lightTurnOn (entity_id : String) (brightness : Option ℤ)
      (xy_color : Option (ℚ × ℚ)) (color_temp : Option ℚ)
deriving DecidableEq, Repr

/-- The body of the `for action in actions` loop of
`control_lights_individually` for one structured action: the
contribution to `all_success` and the service calls issued.
A brightness of exactly `0.0` is coerced to `1.0` before the native
conversion `int((brightness_pct / 100) * 255)`, which is then
lower-bounded at 1; a falsy (`0`) mirek is dropped. -/
def control_one_light (w : World) (rid : Option String)
    (expected : ExpectedAction) : Bool × List ServiceCall :=
  match rid with
  | none => (true, [])
  | some r =>
    if r = "" then (true, [])
    else
      match get_entity_id_from_hue_id w.reg r with
      | none => (false, [])
      | some entity_id =>
        if expected.isOn = false then (true, [ServiceCall.lightTurnOff entity_id])
        else
          let brightness : Option ℤ :=
            match expected.brightness with
            | none => none
            | some brightness_pct =>
              let brightness_pct := if brightness_pct = 0 then 1 else brightness_pct
              some (max (pyInt (brightness_pct / 100 * 255)) 1)
          let xy_color : Option (ℚ × ℚ) :=
            match expected.xy with
            | none => none
            | some xy => some (xy.x, xy.y)
          let color_temp : Option ℚ :=
            match expected.colorTemperature with
            | none => none
            | some none => none
            | some (some ct) => if ct = 0 then none else some ct
          (true, [ServiceCall.lightTurnOn entity_id brightness xy_color color_temp])

/-- The action loop of `control_lights_individually`: a legacy string
element raises `AttributeError` (modelled `none`), which escapes to the
caller's handler; calls already issued stand. -/
def control_actions (w : World) :
    List HueAction → Bool → Option Bool × List ServiceCall
  | [], all_success => (some all_success, [])
  | HueAction.legacy _ :: _, _ => (none, [])
  | HueAction.structured rid action :: rest, all_success =>
    let step := control_one_light w rid action
    let next := control_actions w rest (all_success && step.1)
    (next.1, step.2 ++ next.2)

/-- `control_lights_individually(scene_data)`: `False` without calls for
an empty or legacy action list, otherwise the per-light loop.  `none`
models an exception escaping the method. -/
def control_lights_individually (w : World) (scene_data : Scene) :
    Option Bool × List ServiceCall :=
  if scene_data.actions.isEmpty then (some false, [])
  else if is_legacy_action_format scene_data.actions then (some false, [])
  else control_actions w scene_data.actions true

example :
    control_one_light ⟨[("rid1", "light.a")], [], defaultConfig⟩ (some "rid1")
      ⟨true, some 80, none, none⟩ =
      (true, [ServiceCall.lightTurnOn "light.a" (some 204) none none]) := by decide

example :
    control_one_light ⟨[("rid1", "light.a")], [], defaultConfig⟩ (some "rid1")
      ⟨true, some 0, none, none⟩ =
      (true, [ServiceCall.lightTurnOn "light.a" (some 2) none none]) := by decide

example :
    control_one_light ⟨[("rid1", "light.a")], [], defaultConfig⟩ (some "rid1")
      ⟨true, some 49, none, none⟩ =
      (true, [ServiceCall.lightTurnOn "light.a" (some 124) none none]) := by decide

/-- A report to the circuit breaker at the end of an activation. -/
inductive RecordEvent
  | success
  | failure
deriving DecidableEq, Repr

/-- Per-phase environment: the light states read during the phase
(`get_state`), and whether the hub call respectively the `run_in`
scheduling raises during the phase. -/
structure PhaseEnv where
  stateOf : String → Option ActualState
  activateRaises : Bool
  schedRaises : Bool

/-- Result of `perform_scene_validation`: breaker records and hub calls
made during the phase, and the scheduled Level 2 callback
(delay, `delay_multiplier`, `scene_data`), if any. -/
structure Phase1Out where
  records : List RecordEvent
  calls : List ServiceCall
  next : Option (ℚ × ℕ × Scene)
deriving DecidableEq, Repr

/-- `perform_scene_validation(kwargs)` (Level 1 + Level 2 re-trigger).
Missing or falsy `scene_entity` and an inventory miss return without
recording anything.  On a validation miss the adaptive multiplier is
2 when only `color_temp` failed, the scene is re-triggered
(`scene/turn_on`; a raise there reaches the outer handler, which
records a failure), and Level 2 is scheduled after
`validation_delay * delay_multiplier`; a `run_in` raise is swallowed
by the inner handler without any record. -/
def perform_scene_validation (w : World) (io : PhaseEnv)
    (scene_entity : Option String) : Phase1Out :=
  match scene_entity with
  | none => ⟨[], [], none⟩
  | some entity =>
    if entity = "" then ⟨[], [], none⟩
    else
      match find_scene_in_inventory w entity with
      | none => ⟨[], [], none⟩
      | some scene_data =>
        let v := validate_scene_state w io.stateOf scene_data
        if v.1 then ⟨[RecordEvent.success], [], none⟩
        else
          let delay_multiplier : ℕ := if only_color_temp_failed v.2 then 2 else 1
          if io.activateRaises then ⟨[RecordEvent.failure], [], none⟩
          else
            let level2_delay := w.cfg.validation_delay * (delay_multiplier : ℚ)
            if io.schedRaises then ⟨[], [ServiceCall.sceneTurnOn entity], none⟩
            else ⟨[], [ServiceCall.sceneTurnOn entity],
                  some (level2_delay, delay_multiplier, scene_data)⟩

/-- Result of `perform_level2_validation`: breaker records and the
scheduled Level 3 callback (delay, `scene_data`), if any. -/
structure Phase2Out where
  records : List RecordEvent
  next : Option (ℚ × Scene)
deriving DecidableEq, Repr

/-- `perform_level2_validation(kwargs)`.  Missing parameters return
without a record.  A legacy action list short-circuits to
`record_success` (the re-trigger already happened).  Otherwise the
Level 2 validation runs; on a miss Level 3 is scheduled after
`validation_delay * 3` when only `color_temp` failed again under a
`delay_multiplier` of 2, else after `validation_delay`; a `run_in`
raise is swallowed by the inner handler without any record. -/
def perform_level2_validation (w : World) (io : PhaseEnv)
    (scene_entity : Option String) (scene_data : Option Scene)
    (delay_multiplier : ℕ) : Phase2Out :=
  match scene_entity, scene_data with
  | some entity, some sd =>
    if entity = "" then ⟨[], none⟩
    else if is_legacy_action_format sd.actions then ⟨[RecordEvent.success], none⟩
    else
      let v := validate_scene_state w io.stateOf sd
      if v.1 then ⟨[RecordEvent.success], none⟩
      else
        let level3_delay :=
          if only_color_temp_failed v.2 && decide (delay_multiplier = 2) then
            w.cfg.validation_delay * 3
          else w.cfg.validation_delay
        if io.schedRaises then ⟨[], none⟩
        else ⟨[], some (level3_delay, sd)⟩
  | _, _ => ⟨[], none⟩

/-- Result of `perform_level3_control`: breaker records, light drive
calls, and whether the final settle-delay validation was scheduled. -/
structure Phase3Out where
  records : List RecordEvent
  calls : List ServiceCall
  finalScheduled : Bool
deriving DecidableEq, Repr

/-- `perform_level3_control(kwargs)`.  Missing parameters return without
a record.  If `control_lights_individually` returns `False` (or raises),
a failure is recorded immediately.  Otherwise the final validation is
scheduled after `level3_settle_delay`; this `run_in` sits inside the
outer handler, so a raise there records a failure. -/
def perform_level3_control (w : World) (io : PhaseEnv)
    (scene_entity : Option String) (scene_data : Option Scene) : Phase3Out :=
  match scene_entity, scene_data with
  | some entity, some sd =>
    if entity = "" then ⟨[], [], false⟩
    else
      match control_lights_individually w sd with
      | (none, calls) => ⟨[RecordEvent.failure], calls, false⟩
      | (some false, calls) => ⟨[RecordEvent.failure], calls, false⟩
      | (some true, calls) =>
        if io.schedRaises then ⟨[RecordEvent.failure], calls, false⟩
        else ⟨[], calls, true⟩
  | _, _ => ⟨[], [], false⟩

/-- `_final_level3_validation(_kwargs)`: the settle-delay callback;
resets the failure list, validates, and records the outcome. -/
def final_level3_validation (w : World)
    (stateOf : String → Option ActualState) (scene_data : Scene) :
    RecordEvent × List FailureClass :=
  let v := validate_scene_state w stateOf scene_data
  (if v.1 then RecordEvent.success else RecordEvent.failure, v.2)

/-- Environment of one whole activation: the four phase environments
(Level 1 time, Level 2 time, Level 3 time, final-validation time) and
whether each scheduled callback is delivered with its parameters. -/
structure RunEnv where
  io1 : PhaseEnv
  io2 : PhaseEnv
  io3 : PhaseEnv
  ioF : PhaseEnv
  deliver2 : Bool
  deliver3 : Bool
  deliverF : Bool

/-- Observable outcome of one accepted activation. -/
structure RunOut where
  records : List RecordEvent
  calls : List ServiceCall
  level2Delay : Option ℚ
  level3Delay : Option ℚ
deriving DecidableEq, Repr

/-- One accepted activation end-to-end: the phase chain
`perform_scene_validation` → `perform_level2_validation` →
`perform_level3_control` → `_final_level3_validation`, each stage
running only if the previous one scheduled it. -/
def run_activation (w : World) (r : RunEnv) (entity : String) : RunOut :=
  let p1 := perform_scene_validation w r.io1 (some entity)
  match p1.next with
  | none => ⟨p1.records, p1.calls, none, none⟩
  | some (d2, m, sd) =>
    let p2 := perform_level2_validation w r.io2
        (if r.deliver2 then some entity else none)
        (if r.deliver2 then some sd else none) m
    match p2.next with
    | none => ⟨p1.records ++ p2.records, p1.calls, some d2, none⟩
    | some (d3, sd3) =>
      let p3 := perform_level3_control w r.io3
          (if r.deliver3 then some entity else none)
          (if r.deliver3 then some sd3 else none)
      if p3.finalScheduled && r.deliverF then
        let fin := final_level3_validation w r.ioF.stateOf sd3
        ⟨p1.records ++ p2.records ++ p3.records ++ [fin.1],
         p1.calls ++ p3.calls, some d2, some d3⟩
      else
        ⟨p1.records ++ p2.records ++ p3.records,
         p1.calls ++ p3.calls, some d2, some d3⟩

/-- Circuit breaker state value (`circuit_breaker_state`). -/
inductive CBState
  | closed
  | opened
  | halfOpen
deriving DecidableEq, Repr

/-- The circuit breaker's mutable fields. -/
structure Breaker where
  state : CBState
  failures : ℕ
  successes : ℕ
  openedAt : Option ℚ
deriving DecidableEq, Repr

/-- The circuit-breaker gate at the top of `should_validate_scene`
(lines 396-406): while `OPEN`, transition to `HALF_OPEN` (resetting the
success counter) and continue once the timeout has elapsed since a
truthy `circuit_breaker_opened_at`; otherwise reject.  Any other state
continues unchanged. -/
def circuit_breaker_check (cfg : Config) (b : Breaker) (now : ℚ) :
    Breaker × Bool :=
  if b.state = CBState.opened then
    match b.openedAt with
    | some opened_at =>
      if opened_at ≠ 0 ∧ cfg.cb_timeout ≤ now - opened_at then
        ({ b with state := CBState.halfOpen, successes := 0 }, true)
      else (b, false)
    | none => (b, false)
  else (b, true)

/-- `record_success()`: `HALF_OPEN` counts successes and closes at the
threshold resetting both counters; `CLOSED` clears a non-zero failure
counter; `OPEN` ignores the outcome. -/
def record_success (cfg : Config) (b : Breaker) : Breaker :=
  if b.state = CBState.halfOpen then
    let successes := b.successes + 1
    if cfg.cb_success_threshold ≤ successes then
      { b with state := CBState.closed, failures := 0, successes := 0 }
    else { b with successes := successes }
  else if b.state = CBState.closed then
    if 0 < b.failures then { b with failures := 0 } else b
  else b

/-- `record_failure(now)`: `HALF_OPEN` re-opens, stamping `opened_at`
and resetting successes; `CLOSED` increments failures and opens at the
threshold stamping `opened_at`; `OPEN` ignores the outcome. -/
def record_failure (cfg : Config) (b : Breaker) (now : ℚ) : Breaker :=
  if b.state = CBState.halfOpen then
    { b with state := CBState.opened, openedAt := some now, successes := 0 }
  else if b.state = CBState.closed then
    let failures := b.failures + 1
    if cfg.cb_failure_threshold ≤ failures then
      { b with state := CBState.opened, failures := failures,
               openedAt := some now }
    else { b with failures := failures }
  else b

/-- Mutable state owned by the gating layer. -/
structure GatingState where
  breaker : Breaker
  validation_timestamps : List ℚ
  scene_validation_timestamps : List (String × List ℚ)
  recent_validations : List (String × ℚ)
deriving DecidableEq, Repr

/-- The gating state right after `initialize`. -/
def gatingInit : GatingState :=
  ⟨⟨CBState.closed, 0, 0, none⟩, [], [], []⟩

/-- Python dict assignment `d[k] = v` on an insertion-ordered
association list: replace in place when the key exists, else append. -/
def dictInsert (m : List (String × ℚ)) (k : String) (v : ℚ) :
    List (String × ℚ) :=
  if m.any (fun p => p.1 == k) then
    m.map (fun p => if p.1 == k then (p.1, v) else p)
  else m ++ [(k, v)]

/-- The per-scene window maintenance at the top of `check_rate_limits`:
create the entry if missing, then prune the entity's window to the last
60 seconds. -/
def prune_scene_windows (svt : List (String × List ℚ)) (entity_id : String)
    (now : ℚ) : List (String × List ℚ) :=
  (if svt.any (fun p => p.1 == entity_id) then svt
   else svt ++ [(entity_id, [])]).map
    (fun p =>
      if p.1 == entity_id then (p.1, p.2.filter (fun ts => now - ts < 60))
      else p)

/-- `check_rate_limits(entity_id)`: prune both windows to the last 60
seconds (creating the per-scene list if missing), reject when either
count has reached its maximum, and only then record `now` into both
windows. -/
def check_rate_limits (cfg : Config) (st : GatingState) (entity_id : String)
    (now : ℚ) : GatingState × Bool :=
  let validation_timestamps :=
    st.validation_timestamps.filter (fun ts => now - ts < 60)
  let scene_validation_timestamps :=
    prune_scene_windows st.scene_validation_timestamps entity_id now
  if cfg.max_validations_per_minute ≤ validation_timestamps.length then
    ({ st with validation_timestamps := validation_timestamps,
               scene_validation_timestamps := scene_validation_timestamps },
     false)
  else
    let scene_count :=
      ((scene_validation_timestamps.lookup entity_id).getD []).length
    if cfg.max_validations_per_scene_per_minute ≤ scene_count then
      ({ st with validation_timestamps := validation_timestamps,
                 scene_validation_timestamps := scene_validation_timestamps },
       false)
    else
      ({ st with
           validation_timestamps := validation_timestamps ++ [now],
           scene_validation_timestamps :=
             scene_validation_timestamps.map (fun p =>
               if p.1 == entity_id then (p.1, p.2 ++ [now]) else p) },
       true)

/-- The scene-filter tail of `should_validate_scene` (UID exclusion,
labels, name patterns); reads the scene's labels and friendly name. -/
def scene_filter (cfg : Config) (scene_uid : Option String)
    (scene_labels : List String) (scene_name : String) : Bool :=
  let uid_excluded :=
    match scene_uid with
    | some uid => uid != "" && cfg.exclude_uids.contains uid
    | none => false
  if uid_excluded then false
  else if ¬ cfg.exclude_labels.isEmpty ∧
          scene_labels.any (fun label => cfg.exclude_labels.contains label) then
    false
  else if ¬ cfg.include_labels.isEmpty then
    scene_labels.any (fun label => cfg.include_labels.contains label)
  else if ¬ cfg.name_patterns.isEmpty then
    cfg.name_patterns.any (fun pattern => pattern scene_name)
  else true

/-- `should_validate_scene(entity_id, scene_uid)`: circuit breaker, then
rate limits (which already record the timestamps on success), then the
scene filter. -/
def should_validate_scene (cfg : Config) (st : GatingState)
    (entity_id : String) (scene_uid : Option String)
    (scene_labels : List String) (scene_name : String) (now : ℚ) :
    GatingState × Bool :=
  let cb := circuit_breaker_check cfg st.breaker now
  let st := { st with breaker := cb.1 }
  if cb.2 = false then (st, false)
  else
    let rl := check_rate_limits cfg st entity_id now
    if rl.2 = false then (rl.1, false)
    else (rl.1, scene_filter cfg scene_uid scene_labels scene_name)

/-- The debounce test of `on_scene_state_changed`: the entity has an
entry in the (pruned) debounce map within the window. -/
def debounce_rejects (cfg : Config) (recent : List (String × ℚ))
    (entity : String) (now : ℚ) : Bool :=
  match recent.lookup entity with
  | some last_validation =>
    decide (now - last_validation < cfg.validation_debounce)
  | none => false

/-- `on_scene_state_changed(entity, _attribute, old, new, _kwargs)`:
skip unchanged/unavailable states, prune the debounce map, reject a
scene validated within the debounce window, run the filters (with
`scene_uid = None`), and on acceptance stamp `recent_validations` (the
Level 1 scheduling is `run_activation`'s `p1`). -/
def on_scene_state_changed (cfg : Config) (st : GatingState)
    (entity : String) (scene_labels : List String) (scene_name : String)
    (old new? : Option String) (now : ℚ) : GatingState × Bool :=
  if old = new? ∨ new? = none ∨ new? = some "unavailable" then (st, false)
  else
    let cutoff := now - cfg.validation_debounce
    let recent := st.recent_validations.filter (fun p => cutoff < p.2)
    let st := { st with recent_validations := recent }
    let debounced := debounce_rejects cfg recent entity now
    if debounced then (st, false)
    else
      let sv := should_validate_scene cfg st entity none scene_labels
          scene_name now
      if sv.2 then
        ({ sv.1 with
             recent_validations := dictInsert sv.1.recent_validations entity now },
         true)
      else (sv.1, false)

/-- One observed scene-entity state change. -/
structure Trigger where
  entity : String
  labels : List String
  name : String
  oldState : Option String
  newState : Option String
  now : ℚ

/-- Process one trigger through the whole gating pipeline. -/
def process_trigger (cfg : Config) (st : GatingState) (tr : Trigger) :
    GatingState × Bool :=
  on_scene_state_changed cfg st tr.entity tr.labels tr.name tr.oldState
    tr.newState tr.now

/-- Fold a trigger sequence through the gating layer, collecting the
accepted activations as `(entity, time)` events in order. -/
def run_triggers (cfg : Config) (st : GatingState) :
    List Trigger → GatingState × List (String × ℚ)
  | [] => (st, [])
  | tr :: rest =>
    let step := process_trigger cfg st tr
    let tail := run_triggers cfg step.1 rest
    (tail.1, (if step.2 then [(tr.entity, tr.now)] else []) ++ tail.2)

/-- The time of the latest accepted activation of `entity` in an
accepted-event list. -/
def last_accepted (acc : List (String × ℚ)) (entity : String) : Option ℚ :=
  ((acc.filter (fun p => p.1 == entity)).map (fun p => p.2)).getLast?

/-- C2.  The circuit breaker follows exactly the specified transitions:
an `OPEN` breaker (stamped at a positive wall-clock `opened_at`) rejects
a candidate while less than `cb_timeout` has elapsed and otherwise moves
to `HALF_OPEN` with the success counter reset, letting the candidate
continue; a success in `CLOSED` resets the failure counter; a failure in
`CLOSED` increments it and opens the breaker with a fresh `opened_at`
when the count reaches `failure_threshold`; a success in `HALF_OPEN`
increments the success counter and closes the breaker resetting both
counters when it reaches `success_threshold`; a failure in `HALF_OPEN`
re-opens the breaker with a fresh `opened_at`. -/
theorem circuit_breaker_transitions (cfg : Config) (b : Breaker)
    (now opened_at : ℚ) :
    (b.state = CBState.opened → b.openedAt = some opened_at → 0 < opened_at →
      (now - opened_at < cfg.cb_timeout →
        circuit_breaker_check cfg b now = (b, false)) ∧
      (cfg.cb_timeout ≤ now - opened_at →
        circuit_breaker_check cfg b now =
          ({ b with state := CBState.halfOpen, successes := 0 }, true))) ∧
    (b.state = CBState.closed →
      record_success cfg b = { b with failures := 0 }) ∧
    (b.state = CBState.closed → cfg.cb_failure_threshold ≤ b.failures + 1 →
      record_failure cfg b now =
        { b with state := CBState.opened, failures := b.failures + 1,
                 openedAt := some now }) ∧
    (b.state = CBState.closed → b.failures + 1 < cfg.cb_failure_threshold →
      record_failure cfg b now = { b with failures := b.failures + 1 }) ∧
    (b.state = CBState.halfOpen → cfg.cb_success_threshold ≤ b.successes + 1 →
      record_success cfg b =
        { b with state := CBState.closed, failures := 0, successes := 0 }) ∧
    (b.state = CBState.halfOpen → b.successes + 1 < cfg.cb_success_threshold →
      record_success cfg b = { b with successes := b.successes + 1 }) ∧
    (b.state = CBState.halfOpen →
      record_failure cfg b now =
        { b with state := CBState.opened, openedAt := some now,
                 successes := 0 }) := by
  obtain ⟨bs, bf, bsu, boa⟩ := b
  refine ⟨?_, ?_, ?_, ?_, ?_, ?_, ?_⟩
  · rintro rfl hoa hpos
    simp only [Breaker.openedAt] at hoa
    subst hoa
    constructor
    · intro hlt
      simp [circuit_breaker_check, not_le.mpr hlt]
    · intro hge
      simp [circuit_breaker_check, ne_of_gt hpos, hge]
  · rintro rfl
    rcases Nat.eq_zero_or_pos bf with rfl | hpos
    · simp [record_success]
    · simp [record_success, hpos]
  · rintro rfl hth
    simp [record_failure, hth]
  · rintro rfl hth
    simp [record_failure, Nat.not_le.mpr hth]
  · rintro rfl hth
    simp [record_success, hth]
  · rintro rfl hth
    simp [record_success, Nat.not_le.mpr hth]
  · rintro rfl
    simp [record_failure]

/-- Witness for `circuit_breaker_transitions` at concrete inputs:
an `OPEN` breaker stamped at 10 with timeout 300 rejects at 200 and
half-opens at 400; a `HALF_OPEN` failure re-opens with a fresh stamp. -/
theorem circuit_breaker_transitions_witness :
    circuit_breaker_check defaultConfig
        ⟨CBState.opened, 5, 1, some 10⟩ 200 =
      (⟨CBState.opened, 5, 1, some 10⟩, false) ∧
    circuit_breaker_check defaultConfig
        ⟨CBState.opened, 5, 1, some 10⟩ 400 =
      (⟨CBState.halfOpen, 5, 0, some 10⟩, true) ∧
    record_failure defaultConfig ⟨CBState.halfOpen, 5, 1, some 10⟩ 777 =
      ⟨CBState.opened, 5, 0, some 777⟩ := by
  have h200 := circuit_breaker_transitions defaultConfig
    ⟨CBState.opened, 5, 1, some 10⟩ 200 10
  have h400 := circuit_breaker_transitions defaultConfig
    ⟨CBState.opened, 5, 1, some 10⟩ 400 10
  have hho := circuit_breaker_transitions defaultConfig
    ⟨CBState.halfOpen, 5, 1, some 10⟩ 777 10
  refine ⟨?_, ?_, ?_⟩
  · exact (h200.1 rfl rfl (by norm_num)).1 (by norm_num [defaultConfig])
  · exact (h400.1 rfl rfl (by norm_num)).2 (by norm_num [defaultConfig])
  · exact hho.2.2.2.2.2.2 rfl

theorem compare_ct_step_classes (cfg : Config) (e : ExpectedAction)
    (a : ActualState) :
    ∀ r, compare_ct_step cfg e a = some r →
      r = (true, []) ∨ r = (false, [FailureClass.color_temp]) := by
  intro r h
  unfold compare_ct_step at h
  repeat' split at h
  all_goals simp_all

theorem compare_color_step_classes (cfg : Config) (e : ExpectedAction)
    (a : ActualState) :
    ∀ r, compare_color_step cfg e a = some r →
      r = (true, []) ∨ r = (false, [FailureClass.color]) ∨
        r = (false, [FailureClass.color_temp]) := by
  intro r h
  unfold compare_color_step at h
  split at h
  · rcases compare_ct_step_classes cfg e a r h with h' | h' <;> simp [h']
  · split at h
    · rcases compare_ct_step_classes cfg e a r h with h' | h' <;> simp [h']
    · split at h
      · simp_all
      · rcases compare_ct_step_classes cfg e a r h with h' | h' <;> simp [h']

theorem compare_brightness_step_classes (cfg : Config) (e : ExpectedAction)
    (a : ActualState) :
    ∀ r, compare_brightness_step cfg e a = some r →
      r = (true, []) ∨ r = (false, [FailureClass.brightness]) ∨
        r = (false, [FailureClass.color]) ∨
        r = (false, [FailureClass.color_temp]) := by
  intro r h
  unfold compare_brightness_step at h
  split at h
  · rcases compare_color_step_classes cfg e a r h with h' | h' | h' <;> simp [h']
  · dsimp only at h
    split at h
    · simp_all
    · rcases compare_color_step_classes cfg e a r h with h' | h' | h' <;> simp [h']

theorem compare_light_states_classes (cfg : Config) (e : ExpectedAction)
    (a : ActualState) :
    ∀ r, compare_light_states cfg e a = some r →
      r = (true, []) ∨ r = (false, [FailureClass.on_off]) ∨
        r = (false, [FailureClass.brightness]) ∨
        r = (false, [FailureClass.color]) ∨
        r = (false, [FailureClass.color_temp]) := by
  intro r h
  unfold compare_light_states at h
  split at h
  · simp_all
  · split at h
    · simp_all
    · rcases compare_brightness_step_classes cfg e a r h with h' | h' | h' | h' <;>
        simp [h']

theorem compare_on_rule_passed (cfg : Config) (e : ExpectedAction)
    (a : ActualState) (c : FailureClass)
    (h : compare_light_states cfg e a = some (false, [c]))
    (hc : c ≠ FailureClass.on_off) : e.isOn = a.stateOn := by
  by_cases hon : e.isOn = a.stateOn
  · exact hon
  · simp [compare_light_states, hon] at h
    exact absurd h.symm hc

theorem compare_brightness_rule_passed (cfg : Config) (e : ExpectedAction)
    (a : ActualState) (c : FailureClass)
    (h : compare_light_states cfg e a = some (false, [c]))
    (hc : c ≠ FailureClass.on_off) (hc2 : c ≠ FailureClass.brightness) :
    ∀ eb, e.brightness = some eb →
      |eb - a.brightness.getD 0 / 255 * 100| ≤ cfg.brightness_tolerance := by
  intro eb heb
  have hon := compare_on_rule_passed cfg e a c h hc
  by_cases hONt : e.isOn = true
  · rw [compare_light_states, if_neg (by simp [hon]), if_neg (by simp [hONt])] at h
    rw [compare_brightness_step, heb] at h
    dsimp only at h
    by_cases hlt :
        cfg.brightness_tolerance < pyAbs (eb - a.brightness.getD 0 / 255 * 100)
    · rw [if_pos hlt] at h
      simp at h
      exact absurd h.symm hc2
    · rw [pyAbs_eq_abs] at hlt
      exact le_of_not_lt hlt
  · rw [compare_light_states, if_neg (by simp [hon]),
        if_pos (by simpa using hONt)] at h
    simp at h

theorem compare_color_rule_passed (cfg : Config) (e : ExpectedAction)
    (a : ActualState) (c : FailureClass)
    (h : compare_light_states cfg e a = some (false, [c]))
    (hc : c ≠ FailureClass.on_off) (hc2 : c ≠ FailureClass.brightness)
    (hc3 : c ≠ FailureClass.color) :
    ∀ exy axy, e.xy = some exy → a.xyColor = some axy →
      |exy.x - axy.1| ≤ cfg.color_tolerance ∧
      |exy.y - axy.2| ≤ cfg.color_tolerance := by
  intro exy axy hxy haxy
  have hon := compare_on_rule_passed cfg e a c h hc
  by_cases hONt : e.isOn = true
  · rw [compare_light_states, if_neg (by simp [hon]), if_neg (by simp [hONt])] at h
    rw [compare_brightness_step] at h
    have hcol : compare_color_step cfg e a = some (false, [c]) := by
      rcases heb : e.brightness with _ | eb
      · rwa [heb] at h
      · rw [heb] at h
        dsimp only at h
        by_cases hlt :
            cfg.brightness_tolerance < pyAbs (eb - a.brightness.getD 0 / 255 * 100)
        · rw [if_pos hlt] at h
          simp at h
          exact absurd h.symm hc2
        · rwa [if_neg hlt] at h
    simp only [compare_color_step, hxy, haxy] at hcol
    by_cases hlt : cfg.color_tolerance < pyAbs (exy.x - axy.1) ∨
        cfg.color_tolerance < pyAbs (exy.y - axy.2)
    · rw [if_pos hlt] at hcol
      simp at hcol
      exact absurd hcol.symm hc3
    · push_neg at hlt
      rw [pyAbs_eq_abs, pyAbs_eq_abs] at hlt
      exact hlt
  · rw [compare_light_states, if_neg (by simp [hon]),
        if_pos (by simpa using hONt)] at h
    simp at h

/-- C10.  Each single-light comparison appends at most one failure class
(the first of `on_off`, `brightness`, `color`, `color_temp` to fail in
that order) and returns `False` immediately after appending: a `True`
result appends nothing, a `False` result appends exactly one class, and
a reported class implies every earlier rule passed.  Consequently a
whole validation pass accumulates at most one entry per action. -/
theorem comparator_single_failure_class (cfg : Config) (e : ExpectedAction)
    (a : ActualState) :
    (∀ ok fs, compare_light_states cfg e a = some (ok, fs) →
      fs.length ≤ 1 ∧
      (ok = true → fs = []) ∧
      (ok = false → fs.length = 1) ∧
      (fs = [FailureClass.brightness] → e.isOn = a.stateOn) ∧
      (fs = [FailureClass.color] → e.isOn = a.stateOn ∧
        (∀ eb, e.brightness = some eb →
          |eb - a.brightness.getD 0 / 255 * 100| ≤ cfg.brightness_tolerance)) ∧
      (fs = [FailureClass.color_temp] → e.isOn = a.stateOn ∧
        (∀ eb, e.brightness = some eb →
          |eb - a.brightness.getD 0 / 255 * 100| ≤ cfg.brightness_tolerance) ∧
        (∀ exy axy, e.xy = some exy → a.xyColor = some axy →
          |exy.x - axy.1| ≤ cfg.color_tolerance ∧
          |exy.y - axy.2| ≤ cfg.color_tolerance))) ∧
    (∀ w stateOf sd,
      (validate_scene_state w stateOf sd).2.length ≤ sd.actions.length) := by
  constructor
  · intro ok fs h
    have hclasses := compare_light_states_classes cfg e a (ok, fs) h
    refine ⟨?_, ?_, ?_, ?_, ?_, ?_⟩
    · rcases hclasses with h' | h' | h' | h' | h' <;> simp_all
    · intro hok
      subst hok
      rcases hclasses with h' | h' | h' | h' | h' <;> simp_all
    · intro hok
      subst hok
      rcases hclasses with h' | h' | h' | h' | h' <;> simp_all
    · rintro rfl
      have hfalse : ok = false := by
        rcases hclasses with h' | h' | h' | h' | h' <;> simp_all
      subst hfalse
      exact compare_on_rule_passed cfg e a _ h (by simp)
    · rintro rfl
      have hfalse : ok = false := by
        rcases hclasses with h' | h' | h' | h' | h' <;> simp_all
      subst hfalse
      exact ⟨compare_on_rule_passed cfg e a _ h (by simp),
        compare_brightness_rule_passed cfg e a _ h (by simp) (by simp)⟩
    · rintro rfl
      have hfalse : ok = false := by
        rcases hclasses with h' | h' | h' | h' | h' <;> simp_all
      subst hfalse
      exact ⟨compare_on_rule_passed cfg e a _ h (by simp),
        compare_brightness_rule_passed cfg e a _ h (by simp) (by simp),
        compare_color_rule_passed cfg e a _ h (by simp) (by simp) (by simp)⟩
  · intro w stateOf sd
    rw [validate_scene_state]
    split
    · simp
    · split
      · simp
      · have key : ∀ acts all_match fs,
            (validate_actions w stateOf acts all_match fs).2.length ≤
              fs.length + acts.length := by
          intro acts
          induction acts with
          | nil => intro all_match fs; simp [validate_actions]
          | cons hd tl ih =>
            intro all_match fs
            rcases hd with s | ⟨rid, action⟩
            · dsimp only [validate_actions]
              simp only [List.length_cons]
              omega
            · rcases rid with _ | r
              · rw [validate_actions]
                exact (ih all_match fs).trans
                  (by simp only [List.length_cons]; omega)
              · rw [validate_actions]
                split
                · exact (ih all_match fs).trans
                    (by simp only [List.length_cons]; omega)
                · rcases hmap : get_entity_id_from_hue_id w.reg r with _ | eid <;>
                    simp only [hmap]
                  · exact (ih false fs).trans
                      (by simp only [List.length_cons]; omega)
                  · rcases hst : stateOf eid with _ | actual <;> simp only [hst]
                    · exact (ih false fs).trans
                        (by simp only [List.length_cons]; omega)
                    · rcases hcmp : compare_light_states w.cfg action actual
                        with _ | ⟨ok, appended⟩ <;> simp only [hcmp]
                      · simp only [List.length_cons]
                        omega
                      · have happ : appended.length ≤ 1 := by
                          rcases compare_light_states_classes w.cfg action actual
                            (ok, appended) hcmp with h' | h' | h' | h' | h' <;>
                            simp_all
                        refine (ih (all_match && ok) (fs ++ appended)).trans ?_
                        simp only [List.length_append, List.length_cons]
                        omega
        simpa using key sd.actions true []

/-- Witness for `comparator_single_failure_class` at a concrete input:
a light expected at 80% but observed at native 178 (≈69.8%) appends
exactly the single class `brightness`, and the `on_off` rule had
passed. -/
theorem comparator_single_failure_class_witness :
    [FailureClass.brightness].length ≤ 1 ∧
    ExpectedAction.isOn ⟨true, some 80, none, none⟩ =
      ActualState.stateOn ⟨true, some 178, none, none⟩ := by
  have h := (comparator_single_failure_class defaultConfig
      ⟨true, some 80, none, none⟩ ⟨true, some 178, none, none⟩).1
      false [FailureClass.brightness] (by decide)
  exact ⟨h.1, h.2.2.2.1 rfl⟩

/-- C9.  For a single-light comparison with both sides on and an
expected brightness percent present, the comparator normalises the
observed native brightness as `observed / 255 * 100` and fails with
exactly the `brightness` class iff the absolute difference strictly
exceeds `brightness_tolerance`; an expected brightness of `0` is
compared as an expected 0% (it is not coerced to 1% for validation). -/
theorem brightness_comparison_rule (cfg : Config) (e : ExpectedAction)
    (a : ActualState) (eb ob : ℚ)
    (hon : e.isOn = true) (han : a.stateOn = true)
    (heb : e.brightness = some eb) (hob : a.brightness = some ob) :
    (compare_light_states cfg e a = some (false, [FailureClass.brightness]) ↔
      cfg.brightness_tolerance < |eb - ob / 255 * 100|) ∧
    (eb = 0 →
      (compare_light_states cfg e a = some (false, [FailureClass.brightness]) ↔
        cfg.brightness_tolerance < |ob / 255 * 100|)) := by
  have hmain :
      compare_light_states cfg e a = some (false, [FailureClass.brightness]) ↔
        cfg.brightness_tolerance < |eb - ob / 255 * 100| := by
    rw [compare_light_states, if_neg (by simp [hon, han]),
        if_neg (by simp [hon])]
    rw [compare_brightness_step, heb]
    dsimp only
    rw [hob, Option.getD_some, pyAbs_eq_abs]
    by_cases hlt : cfg.brightness_tolerance < |eb - ob / 255 * 100|
    · simp [hlt]
    · rw [if_neg hlt]
      simp only [hlt, iff_false]
      intro hcol
      rcases compare_color_step_classes cfg e a _ hcol with h' | h' | h' <;>
        simp at h'
  refine ⟨hmain, ?_⟩
  rintro rfl
  rw [hmain, zero_sub, abs_neg]

/-- Witness for `brightness_comparison_rule`: expected 80%, observed
native 178 (≈69.8%, difference ≈10.2 > 5) fails with the `brightness`
class; and with expected `0` and observed native `0` the comparison
passes (`0%` expected, not `1%`). -/
theorem brightness_comparison_rule_witness :
    compare_light_states defaultConfig ⟨true, some 80, none, none⟩
      ⟨true, some 178, none, none⟩ = some (false, [FailureClass.brightness]) ∧
    ¬ (compare_light_states defaultConfig ⟨true, some 0, none, none⟩
        ⟨true, some 0, none, none⟩ = some (false, [FailureClass.brightness])) := by
  constructor
  · exact (brightness_comparison_rule defaultConfig
      ⟨true, some 80, none, none⟩ ⟨true, some 178, none, none⟩ 80 178
      rfl rfl rfl rfl).1.mpr (by rw [abs_of_pos] <;> norm_num [defaultConfig])
  · intro hcontra
    have h := ((brightness_comparison_rule defaultConfig
      ⟨true, some 0, none, none⟩ ⟨true, some 0, none, none⟩ 0 0
      rfl rfl rfl rfl).2 rfl).mp hcontra
    norm_num [defaultConfig] at h

/-- Counterexample to C6 as stated: for brightness percent 49 the code
sends `int(49/100*255) = int(124.95) = 124` to the hub, while
`round(49/100*255)` lower-bounded at 1 is `125`. -/
theorem brightness_drive_rounding_counterexample :
    control_one_light ⟨[("rid1", "light.a")], [], defaultConfig⟩ (some "rid1")
      ⟨true, some 49, none, none⟩ =
      (true, [ServiceCall.lightTurnOn "light.a" (some 124) none none]) ∧
    max (round ((49 : ℚ) / 100 * 255)) 1 = 125 ∧ (124 : ℤ) ≠ 125 := by
  refine ⟨by decide, by decide, by decide⟩

/-- C6 (amended).  For every Level 3 drive of a light whose desired
state is on with a brightness percent `b` present: `b = 0` is coerced
to `1`, and the native brightness sent equals the Python `int()`
truncation of `b/100*255` (not its rounding), lower-bounded at 1. -/
theorem brightness_drive_translation (w : World) (rid eid : String)
    (e : ExpectedAction) (b : ℚ)
    (hrid : rid ≠ "") (hmap : get_entity_id_from_hue_id w.reg rid = some eid)
    (hon : e.isOn = true) (hb : e.brightness = some b) :
    control_one_light w (some rid) e =
      (true, [ServiceCall.lightTurnOn eid
        (some (max (pyInt ((if b = 0 then 1 else b) / 100 * 255)) 1))
        (e.xy.map (fun xy => (xy.x, xy.y)))
        (match e.colorTemperature with
         | none => none
         | some none => none
         | some (some ct) => if ct = 0 then none else some ct)]) := by
  rw [control_one_light]
  simp only [if_neg hrid, hmap, hon, hb]
  rcases e.xy with _ | xy <;> rcases hct : e.colorTemperature with _ | (_ | ct) <;>
    simp [hct]

/-- Witness for `brightness_drive_translation`: brightness `0` is
coerced to 1% and sent as native `max(int(2.55), 1) = 2`. -/
theorem brightness_drive_translation_witness :
    control_one_light ⟨[("rid1", "light.a")], [], defaultConfig⟩ (some "rid1")
      ⟨true, some 0, none, none⟩ =
      (true, [ServiceCall.lightTurnOn "light.a" (some 2) none none]) := by
  rw [brightness_drive_translation ⟨[("rid1", "light.a")], [], defaultConfig⟩
    "rid1" "light.a" ⟨true, some 0, none, none⟩ 0 (by decide) (by decide) rfl rfl]
  decide

theorem perform_scene_validation_miss (w : World) (io : PhaseEnv)
    (entity : String) (sd : Scene)
    (hent : entity ≠ "")
    (hfind : find_scene_in_inventory w entity = some sd)
    (hv : (validate_scene_state w io.stateOf sd).1 = false)
    (hact : io.activateRaises = false)
    (hsched : io.schedRaises = false) :
    perform_scene_validation w io (some entity) =
      ⟨[], [ServiceCall.sceneTurnOn entity],
       some (w.cfg.validation_delay *
          ((if only_color_temp_failed (validate_scene_state w io.stateOf sd).2
            then 2 else 1 : ℕ) : ℚ),
        (if only_color_temp_failed (validate_scene_state w io.stateOf sd).2
         then 2 else 1 : ℕ), sd)⟩ := by
  rw [perform_scene_validation]
  simp [hent, hfind, hv, hact, hsched]

theorem perform_level2_validation_no_params (w : World) (io : PhaseEnv)
    (m : ℕ) : perform_level2_validation w io none none m = ⟨[], none⟩ := rfl

theorem perform_level2_validation_miss (w : World) (io : PhaseEnv)
    (entity : String) (sd : Scene) (m : ℕ)
    (hent : entity ≠ "")
    (hleg : is_legacy_action_format sd.actions = false)
    (hv : (validate_scene_state w io.stateOf sd).1 = false)
    (hsched : io.schedRaises = false) :
    perform_level2_validation w io (some entity) (some sd) m =
      ⟨[], some
        (if only_color_temp_failed (validate_scene_state w io.stateOf sd).2 ∧
            m = 2
         then w.cfg.validation_delay * 3 else w.cfg.validation_delay, sd)⟩ := by
  rw [perform_level2_validation]
  simp only [hent, hleg, hv, hsched, Bool.false_eq_true, if_false,
    Bool.and_eq_true, decide_eq_true_eq]

theorem run_activation_level2Delay (w : World) (r : RunEnv) (entity : String)
    (d2 : ℚ) (m : ℕ) (sd : Scene)
    (hp1 : perform_scene_validation w r.io1 (some entity) =
      ⟨[], [ServiceCall.sceneTurnOn entity], some (d2, m, sd)⟩) :
    (run_activation w r entity).level2Delay = some d2 := by
  rw [run_activation, hp1]
  dsimp only
  rcases hnext : (perform_level2_validation w r.io2
      (if r.deliver2 = true then some entity else none)
      (if r.deliver2 = true then some sd else none) m).next with _ | d3sd3
  · simp [hnext]
  · rcases d3sd3 with ⟨d3, sd3⟩
    simp only [hnext]
    repeat' split
    all_goals rfl

theorem run_activation_level3Delay (w : World) (r : RunEnv) (entity : String)
    (d2 d3 : ℚ) (m : ℕ) (sd sd3 : Scene)
    (hdel : r.deliver2 = true)
    (hp1 : perform_scene_validation w r.io1 (some entity) =
      ⟨[], [ServiceCall.sceneTurnOn entity], some (d2, m, sd)⟩)
    (hp2 : perform_level2_validation w r.io2 (some entity) (some sd) m =
      ⟨[], some (d3, sd3)⟩) :
    (run_activation w r entity).level3Delay = some d3 := by
  rw [run_activation, hp1]
  dsimp only
  rw [hdel]
  simp only [if_true, reduceIte, hp2]
  repeat' split
  all_goals rfl

/-- C1.  For every accepted activation whose Level 1 validation misses
(and whose scheduling succeeds), Level 2 is scheduled after
`validation_delay * m₁` with `m₁ = 2` iff the Level 1 failure list is
non-empty and contains only `color_temp`, else `m₁ = 1`; if the Level 2
validation also misses, Level 3 is scheduled after
`validation_delay * m₃` with `m₃ = 3` iff `m₁ = 2` and the Level 2
failure list again is non-empty containing only `color_temp`, else
`m₃ = 1`. -/
theorem adaptive_delay_multipliers (w : World) (r : RunEnv) (entity : String)
    (sd : Scene) (fs1 : List FailureClass)
    (hent : entity ≠ "")
    (hfind : find_scene_in_inventory w entity = some sd)
    (hv1 : (validate_scene_state w r.io1.stateOf sd).1 = false)
    (hfs1 : (validate_scene_state w r.io1.stateOf sd).2 = fs1)
    (hact : r.io1.activateRaises = false)
    (hsched1 : r.io1.schedRaises = false) :
    (run_activation w r entity).level2Delay =
      some (w.cfg.validation_delay *
        ((if only_color_temp_failed fs1 then 2 else 1 : ℕ) : ℚ)) ∧
    (∀ fs2, r.deliver2 = true →
      is_legacy_action_format sd.actions = false →
      (validate_scene_state w r.io2.stateOf sd).1 = false →
      (validate_scene_state w r.io2.stateOf sd).2 = fs2 →
      r.io2.schedRaises = false →
      (run_activation w r entity).level3Delay =
        some (w.cfg.validation_delay *
          ((if (if only_color_temp_failed fs1 then 2 else 1 : ℕ) = 2 ∧
               only_color_temp_failed fs2
            then 3 else 1 : ℕ) : ℚ))) := by
  have hp1 := perform_scene_validation_miss w r.io1 entity sd hent hfind hv1
    hact hsched1
  rw [hfs1] at hp1
  constructor
  · exact run_activation_level2Delay w r entity _ _ sd hp1
  · intro fs2 hdel hleg hv2 hfs2 hsched2
    have hp2 := perform_level2_validation_miss w r.io2 entity sd
      (if only_color_temp_failed fs1 then 2 else 1) hent hleg hv2 hsched2
    rw [hfs2] at hp2
    have hrun := run_activation_level3Delay w r entity _ _ _ sd sd hdel hp1 hp2
    rw [hrun]
    by_cases hct1 : only_color_temp_failed fs1 <;>
      by_cases hct2 : only_color_temp_failed fs2 <;>
      simp [hct1, hct2, mul_comm]

/-- Concrete scene for witnesses: one light expected at mirek 366. -/
def ctScene : Scene :=
  ⟨"uid-scene", [HueAction.structured (some "rid1")
    ⟨true, none, none, some (some 366)⟩]⟩

/-- Concrete world holding `ctScene`: the registry maps the scene's
unique id and the light's resource id. -/
def ctWorld : World :=
  ⟨[("uid-scene", "scene.s"), ("rid1", "light.a")], [[ctScene]], defaultConfig⟩

/-- Observed state with the light at mirek 420 (Δ = 54 > 50). -/
def ctState : String → Option ActualState := fun e =>
  if e = "light.a" then some ⟨true, none, none, some 420⟩ else none

/-- Phase environment reading `ctState`, nothing raising. -/
def ctPhase : PhaseEnv := ⟨ctState, false, false⟩

/-- Run environment delivering every callback. -/
def ctRunEnv : RunEnv := ⟨ctPhase, ctPhase, ctPhase, ctPhase, true, true, true⟩

/-- Witness for `adaptive_delay_multipliers`: with only `color_temp`
failing at Level 1 and again at Level 2, Level 2 is scheduled after
2×2 = 4 s and Level 3 after 3×2 = 6 s. -/
theorem adaptive_delay_multipliers_witness :
    (run_activation ctWorld ctRunEnv "scene.s").level2Delay = some 4 ∧
    (run_activation ctWorld ctRunEnv "scene.s").level3Delay = some 6 := by
  have h := adaptive_delay_multipliers ctWorld ctRunEnv "scene.s" ctScene
    [FailureClass.color_temp] (by decide) (by decide) (by decide) (by decide)
    rfl rfl
  constructor
  · rw [h.1]
    decide
  · rw [h.2 [FailureClass.color_temp] rfl (by decide) (by decide) (by decide)
      rfl]
    decide

theorem validate_scene_state_legacy (w : World)
    (stateOf : String → Option ActualState) (sd : Scene)
    (hleg : is_legacy_action_format sd.actions = true) :
    validate_scene_state w stateOf sd = (false, []) := by
  have hne : sd.actions.isEmpty = false := by
    rcases h : sd.actions with _ | ⟨hd, tl⟩
    · rw [h] at hleg
      simp [is_legacy_action_format] at hleg
    · simp
  rw [validate_scene_state]
  simp [hne, hleg]

theorem perform_level2_validation_legacy (w : World) (io : PhaseEnv)
    (entity : String) (sd : Scene) (m : ℕ)
    (hent : entity ≠ "")
    (hleg : is_legacy_action_format sd.actions = true) :
    perform_level2_validation w io (some entity) (some sd) m =
      ⟨[RecordEvent.success], none⟩ := by
  rw [perform_level2_validation]
  simp [hent, hleg]

theorem run_activation_phase2_end (w : World) (r : RunEnv) (entity : String)
    (d2 : ℚ) (m : ℕ) (sd : Scene) (recs2 : List RecordEvent)
    (hdel : r.deliver2 = true)
    (hp1 : perform_scene_validation w r.io1 (some entity) =
      ⟨[], [ServiceCall.sceneTurnOn entity], some (d2, m, sd)⟩)
    (hp2 : perform_level2_validation w r.io2 (some entity) (some sd) m =
      ⟨recs2, none⟩) :
    run_activation w r entity =
      ⟨recs2, [ServiceCall.sceneTurnOn entity], some d2, none⟩ := by
  rw [run_activation, hp1]
  dsimp only
  rw [hdel]
  simp only [if_true, reduceIte, hp2]
  simp

/-- C8.  For every accepted activation whose scene is found in inventory
with a legacy (string-formatted) action list, the run issues exactly one
re-activate (`scene/turn_on`), reports success to the breaker, and never
schedules Level 3 (so no individual drive call is ever issued). -/
theorem legacy_inventory_soundness (w : World) (r : RunEnv) (entity : String)
    (sd : Scene)
    (hent : entity ≠ "")
    (hfind : find_scene_in_inventory w entity = some sd)
    (hleg : is_legacy_action_format sd.actions = true)
    (hact : r.io1.activateRaises = false)
    (hsched1 : r.io1.schedRaises = false)
    (hdel : r.deliver2 = true) :
    (run_activation w r entity).records = [RecordEvent.success] ∧
    (run_activation w r entity).calls = [ServiceCall.sceneTurnOn entity] ∧
    (run_activation w r entity).level3Delay = none := by
  have hv := validate_scene_state_legacy w r.io1.stateOf sd hleg
  have hp1 := perform_scene_validation_miss w r.io1 entity sd hent hfind
    (by rw [hv]) hact hsched1
  rw [hv] at hp1
  simp only [only_color_temp_failed, List.length_nil, List.all_nil,
    Bool.and_true, decide_eq_true_eq] at hp1
  rw [if_neg (by norm_num)] at hp1
  have hp2 := perform_level2_validation_legacy w r.io2 entity sd 1 hent hleg
  rw [run_activation_phase2_end w r entity _ 1 sd [RecordEvent.success] hdel
    hp1 hp2]
  exact ⟨rfl, rfl, rfl⟩

/-- Concrete legacy scene and world for the C8 witness. -/
def legacyScene : Scene :=
  ⟨"uid-legacy", [HueAction.legacy "ResourceIdentifierSceneAction(...)"]⟩

/-- World holding the legacy scene. -/
def legacyWorld : World :=
  ⟨[("uid-legacy", "scene.old")], [[legacyScene]], defaultConfig⟩

/-- Witness for `legacy_inventory_soundness`: the legacy scene's run
records exactly one success, issues one `scene/turn_on` and never
schedules Level 3. -/
theorem legacy_inventory_soundness_witness :
    (run_activation legacyWorld ctRunEnv "scene.old").records =
      [RecordEvent.success] ∧
    (run_activation legacyWorld ctRunEnv "scene.old").calls =
      [ServiceCall.sceneTurnOn "scene.old"] ∧
    (run_activation legacyWorld ctRunEnv "scene.old").level3Delay = none :=
  legacy_inventory_soundness legacyWorld ctRunEnv "scene.old" legacyScene
    (by decide) (by decide) (by decide) rfl rfl rfl

theorem perform_scene_validation_records (w : World) (io : PhaseEnv)
    (se : Option String) :
    (perform_scene_validation w io se).records.length ≤ 1 ∧
    ((perform_scene_validation w io se).next ≠ none →
      (perform_scene_validation w io se).records = []) := by
  rcases se with _ | entity
  · simp [perform_scene_validation]
  · rw [perform_scene_validation]
    repeat' split
    all_goals constructor
    all_goals try dsimp only
    all_goals try split_ifs
    all_goals simp

theorem perform_level3_control_no_params (w : World) (io : PhaseEnv)
    (se : Option String) (sd : Option Scene)
    (h : se = none ∨ sd = none) :
    perform_level3_control w io se sd = ⟨[], [], false⟩ := by
  rcases se with _ | entity <;> rcases sd with _ | s <;> simp_all <;> rfl

theorem perform_level2_validation_missing_params (w : World) (io : PhaseEnv)
    (se : Option String) (sd : Option Scene) (m : ℕ)
    (h : se = none ∨ sd = none) :
    perform_level2_validation w io se sd m = ⟨[], none⟩ := by
  rcases se with _ | entity <;> rcases sd with _ | s <;> simp_all <;> rfl

theorem perform_level2_validation_records (w : World) (io : PhaseEnv)
    (se : Option String) (sd : Option Scene) (m : ℕ) :
    (perform_level2_validation w io se sd m).records.length ≤ 1 ∧
    ((perform_level2_validation w io se sd m).next ≠ none →
      (perform_level2_validation w io se sd m).records = []) := by
  rcases se with _ | entity <;> rcases sd with _ | s
  · simp [perform_level2_validation_missing_params]
  · simp [perform_level2_validation_missing_params]
  · simp [perform_level2_validation_missing_params]
  · rw [perform_level2_validation]
    repeat' split
    all_goals constructor
    all_goals try dsimp only
    all_goals try split_ifs
    all_goals simp

theorem perform_level3_control_records (w : World) (io : PhaseEnv)
    (se : Option String) (sd : Option Scene) :
    (perform_level3_control w io se sd).records.length ≤ 1 ∧
    ((perform_level3_control w io se sd).finalScheduled = true →
      (perform_level3_control w io se sd).records = []) := by
  rcases se with _ | entity <;> rcases sd with _ | s
  · simp [perform_level3_control_no_params]
  · simp [perform_level3_control_no_params]
  · simp [perform_level3_control_no_params]
  · rw [perform_level3_control]
    repeat' split
    all_goals constructor
    all_goals try dsimp only
    all_goals simp_all

/-- World with no registry entries and no inventories. -/
def emptyWorld : World := ⟨[], [], defaultConfig⟩

/-- Counterexample to C3 as stated: an accepted activation whose scene
is not found in the loaded inventories returns from
`perform_scene_validation` without calling `record_success` or
`record_failure` — zero breaker records, not exactly one. -/
theorem activation_record_counterexample :
    (run_activation emptyWorld ctRunEnv "scene.unknown").records.length = 0 := by
  decide

theorem perform_scene_validation_cases (w : World) (io : PhaseEnv)
    (entity : String) (sd : Scene)
    (hent : entity ≠ "")
    (hfind : find_scene_in_inventory w entity = some sd)
    (hsched : io.schedRaises = false) :
    ((perform_scene_validation w io (some entity)).records.length = 1 ∧
      (perform_scene_validation w io (some entity)).next = none) ∨
    (∃ d m, perform_scene_validation w io (some entity) =
      ⟨[], [ServiceCall.sceneTurnOn entity], some (d, m, sd)⟩) := by
  rw [perform_scene_validation]
  simp only [hent, if_false, reduceIte, hfind, hsched]
  rcases hv : (validate_scene_state w io.stateOf sd).1
  · rcases hact : io.activateRaises
    · right
      refine ⟨w.cfg.validation_delay *
          ((if only_color_temp_failed (validate_scene_state w io.stateOf sd).2
            then 2 else 1 : ℕ) : ℚ),
        (if only_color_temp_failed (validate_scene_state w io.stateOf sd).2
         then 2 else 1 : ℕ), ?_⟩
      simp
    · left
      simp
  · left
    simp

theorem perform_level2_validation_cases (w : World) (io : PhaseEnv)
    (entity : String) (sd : Scene) (m : ℕ)
    (hent : entity ≠ "")
    (hsched : io.schedRaises = false) :
    ((perform_level2_validation w io (some entity) (some sd) m).records.length
        = 1 ∧
      (perform_level2_validation w io (some entity) (some sd) m).next = none) ∨
    (∃ d3, perform_level2_validation w io (some entity) (some sd) m =
      ⟨[], some (d3, sd)⟩) := by
  rw [perform_level2_validation]
  simp only [hent, if_false, reduceIte, hsched]
  rcases hleg : is_legacy_action_format sd.actions
  · rcases hv : (validate_scene_state w io.stateOf sd).1
    · right
      refine ⟨(if only_color_temp_failed (validate_scene_state w io.stateOf sd).2
               ∧ m = 2
               then w.cfg.validation_delay * 3 else w.cfg.validation_delay), ?_⟩
      simp
    · left
      simp
  · left
    simp

theorem perform_level3_control_cases (w : World) (io : PhaseEnv)
    (entity : String) (sd : Scene)
    (hent : entity ≠ "") :
    ((perform_level3_control w io (some entity) (some sd)).records.length = 1 ∧
      (perform_level3_control w io (some entity) (some sd)).finalScheduled
        = false) ∨
    (∃ calls, perform_level3_control w io (some entity) (some sd) =
      ⟨[], calls, true⟩) := by
  rw [perform_level3_control]
  simp only [hent, if_false, reduceIte]
  rcases hctl : control_lights_individually w sd with ⟨ok, calls⟩
  rcases ok with _ | b
  · left
    simp
  · rcases b
    · left
      simp
    · rcases hsched : io.schedRaises
      · right
        exact ⟨calls, by simp⟩
      · left
        simp

/-- C3 (amended).  Every accepted activation terminates in at most one
breaker record; and in exactly one whenever the scene entity is truthy,
the scene is found in the inventories, every scheduled callback is
delivered with its parameters, and no `run_in` scheduling raises at
Levels 1 and 2.  (The scene-not-found, missing-parameter and
Level-1/Level-2 scheduler-error paths return with zero records.) -/
theorem activation_single_breaker_record (w : World) (r : RunEnv)
    (entity : String) :
    (run_activation w r entity).records.length ≤ 1 ∧
    (entity ≠ "" → ∀ sd, find_scene_in_inventory w entity = some sd →
      r.deliver2 = true → r.deliver3 = true → r.deliverF = true →
      r.io1.schedRaises = false → r.io2.schedRaises = false →
      (run_activation w r entity).records.length = 1) := by
  constructor
  · rw [run_activation]
    dsimp only
    rcases hn1 : (perform_scene_validation w r.io1 (some entity)).next
      with _ | ⟨d2, m, sd⟩
    · simpa using (perform_scene_validation_records w r.io1 (some entity)).1
    · have h1 : (perform_scene_validation w r.io1 (some entity)).records = [] :=
        (perform_scene_validation_records w r.io1 (some entity)).2
          (by rw [hn1]; simp)
      simp only [hn1, h1]
      rcases hn2 : (perform_level2_validation w r.io2
          (if r.deliver2 = true then some entity else none)
          (if r.deliver2 = true then some sd else none) m).next
        with _ | ⟨d3, sd3⟩
      · simpa using (perform_level2_validation_records w r.io2 _ _ m).1
      · have h2 : (perform_level2_validation w r.io2
            (if r.deliver2 = true then some entity else none)
            (if r.deliver2 = true then some sd else none) m).records = [] :=
          (perform_level2_validation_records w r.io2 _ _ m).2
            (by rw [hn2]; simp)
        simp only [hn2, h2]
        by_cases hfin : ((perform_level3_control w r.io3
            (if r.deliver3 = true then some entity else none)
            (if r.deliver3 = true then some sd3 else none)).finalScheduled
              && r.deliverF) = true
        · have h3 : (perform_level3_control w r.io3
              (if r.deliver3 = true then some entity else none)
              (if r.deliver3 = true then some sd3 else none)).records = [] :=
            (perform_level3_control_records w r.io3 _ _).2
              ((Bool.and_eq_true _ _).mp hfin).1
          rw [if_pos hfin]
          simp [h3]
        · rw [if_neg hfin]
          simpa using (perform_level3_control_records w r.io3 _ _).1
  · intro hent sd hfind hdel2 hdel3 hdelF hs1 hs2
    rcases perform_scene_validation_cases w r.io1 entity sd hent hfind hs1
      with ⟨hlen1, hn1⟩ | ⟨d2, m, hp1⟩
    · rw [run_activation]
      dsimp only
      simp only [hn1]
      exact hlen1
    · rw [run_activation, hp1]
      dsimp only
      rw [hdel2]
      simp only [if_true, reduceIte]
      rcases perform_level2_validation_cases w r.io2 entity sd m hent hs2
        with ⟨hlen2, hn2⟩ | ⟨d3, hp2⟩
      · simp only [hn2]
        simpa using hlen2
      · rw [hp2]
        dsimp only
        rw [hdel3]
        simp only [if_true, reduceIte]
        rcases perform_level3_control_cases w r.io3 entity sd hent
          with ⟨hlen3, hfin3⟩ | ⟨calls, hp3⟩
        · rw [if_neg (by simp [hfin3])]
          simpa using hlen3
        · rw [hp3]
          rw [if_pos (by simp [hp3, hdelF])]
          simp

/-- Witness for `activation_single_breaker_record`: the concrete
color-temperature scenario ends in exactly one breaker record. -/
theorem activation_single_breaker_record_witness :
    (run_activation ctWorld ctRunEnv "scene.s").records.length = 1 :=
  (activation_single_breaker_record ctWorld ctRunEnv "scene.s").2 (by decide)
    ctScene (by decide) rfl rfl rfl rfl rfl

theorem control_actions_spec (w : World) :
    ∀ (acts : List HueAction) (flag : Bool),
      (∀ s, HueAction.legacy s ∉ acts) →
      (control_actions w acts flag).2 =
        (acts.map (fun a => match a with
          | HueAction.legacy _ => []
          | HueAction.structured rid action =>
            (control_one_light w rid action).2)).flatten ∧
      (control_actions w acts flag).1 =
        some (flag && acts.all (fun a => match a with
          | HueAction.legacy _ => true
          | HueAction.structured rid action =>
            (control_one_light w rid action).1)) := by
  intro acts
  induction acts with
  | nil => intro flag _; simp [control_actions]
  | cons hd tl ih =>
    intro flag hleg
    rcases hd with s | ⟨rid, action⟩
    · exact absurd (List.mem_cons_self _ _) (hleg s)
    · have htl : ∀ s, HueAction.legacy s ∉ tl := by
        intro s hmem
        exact hleg s (List.mem_cons_of_mem _ hmem)
      have := ih (flag && (control_one_light w rid action).1) htl
      rw [control_actions]
      constructor
      · simp only [this.1]
        simp
      · simp only [this.2]
        simp [Bool.and_assoc]

/-- C4 (amended).  Whenever Level 3 runs: (a) with a structured action
list every action's light is driven independently — the calls issued
are the concatenation of each action's own calls, so a per-light
failure never suppresses a sibling's drive; (b) when every resource id
resolves (`control_lights_individually` returns `True`), the engine
schedules the final validation after `level3_settle_delay` without
recording, so that validation alone determines the breaker record;
(c) when it returns `False` (or raises), `record_failure` is reported
immediately and no final validation is scheduled. -/
theorem level3_individual_control (w : World) (io : PhaseEnv)
    (entity : String) (sd : Scene) (hent : entity ≠ "") :
    ((∀ s, HueAction.legacy s ∉ sd.actions) →
      (control_lights_individually w sd).2 =
        (sd.actions.map (fun a => match a with
          | HueAction.legacy _ => []
          | HueAction.structured rid action =>
            (control_one_light w rid action).2)).flatten) ∧
    (∀ calls, control_lights_individually w sd = (some true, calls) →
      io.schedRaises = false →
      perform_level3_control w io (some entity) (some sd) =
        ⟨[], calls, true⟩) ∧
    (∀ ok calls, control_lights_individually w sd = (ok, calls) →
      (ok = some false ∨ ok = none) →
      perform_level3_control w io (some entity) (some sd) =
        ⟨[RecordEvent.failure], calls, false⟩) := by
  refine ⟨?_, ?_, ?_⟩
  · intro hleg
    rw [control_lights_individually]
    rcases hacts : sd.actions with _ | ⟨hd, tl⟩
    · simp
    · have hlegf : is_legacy_action_format sd.actions = false := by
        rw [hacts]
        rcases hd with s | ⟨rid, action⟩
        · exact absurd (by rw [hacts]; exact List.mem_cons_self _ _) (hleg s)
        · rfl
      rw [hacts] at hlegf
      simp only [List.isEmpty_cons, hlegf, Bool.false_eq_true, if_false]
      rw [← hacts]
      exact (control_actions_spec w sd.actions true hleg).1
  · intro calls hctl hsched
    rw [perform_level3_control]
    simp [hent, hctl, hsched]
  · intro ok calls hctl hok
    rw [perform_level3_control]
    rcases hok with rfl | rfl <;> simp [hent, hctl]

/-- Scene with one unresolvable resource id and one resolvable sibling. -/
def siblingScene : Scene :=
  ⟨"uid-sib", [HueAction.structured (some "ghost") ⟨true, some 50, none, none⟩,
               HueAction.structured (some "rid1") ⟨true, some 50, none, none⟩]⟩

/-- Counterexample to C4 as stated: with an unresolvable resource id for
the first light, the sibling is still driven, but `record_failure` is
reported immediately — no settle delay, no final Level 3 validation, so
the final validation's result does not determine the outcome. -/
theorem level3_no_final_validation_counterexample :
    perform_level3_control ⟨[("rid1", "light.a")], [], defaultConfig⟩ ctPhase
      (some "scene.x") (some siblingScene) =
      ⟨[RecordEvent.failure],
       [ServiceCall.lightTurnOn "light.a" (some 127) none none], false⟩ := by
  decide

/-- Witness for `level3_individual_control`: when every resource id of
`ctScene` resolves, Level 3 drives the light and schedules the final
validation with no record yet. -/
theorem level3_individual_control_witness :
    perform_level3_control ctWorld ctPhase (some "scene.s") (some ctScene) =
      ⟨[], [ServiceCall.lightTurnOn "light.a" none none (some 366)], true⟩ :=
  (level3_individual_control ctWorld ctPhase "scene.s" ctScene (by decide)).2.1
    [ServiceCall.lightTurnOn "light.a" none none (some 366)] (by decide) rfl

theorem check_rate_limits_frame (cfg : Config) (st : GatingState)
    (entity : String) (now : ℚ) :
    (check_rate_limits cfg st entity now).1.breaker = st.breaker ∧
    (check_rate_limits cfg st entity now).1.recent_validations =
      st.recent_validations ∧
    ((check_rate_limits cfg st entity now).2 = false →
      (check_rate_limits cfg st entity now).1.validation_timestamps =
        st.validation_timestamps.filter (fun ts => now - ts < 60) ∧
      (check_rate_limits cfg st entity now).1.scene_validation_timestamps =
        prune_scene_windows st.scene_validation_timestamps entity now) ∧
    ((check_rate_limits cfg st entity now).2 = true →
      (check_rate_limits cfg st entity now).1.validation_timestamps =
        st.validation_timestamps.filter (fun ts => now - ts < 60) ++ [now] ∧
      (check_rate_limits cfg st entity now).1.scene_validation_timestamps =
        (prune_scene_windows st.scene_validation_timestamps entity now).map
          (fun p => if p.1 == entity then (p.1, p.2 ++ [now]) else p)) := by
  rw [check_rate_limits]
  repeat' split
  all_goals try dsimp only
  all_goals repeat' split
  all_goals simp

/-- C5 (amended).  Frame effects of the gating pipeline on the three
gating structures: an invalid trigger changes nothing; a debounce
rejection leaves both rate windows untouched (debounce map pruned
only); a circuit-breaker rejection likewise; a rate-limit rejection
leaves both windows merely pruned; but a candidate that passes
breaker, debounce and rate limits and is then rejected by the scene
filter has already had its timestamp recorded into both rate windows
(the debounce map alone stays unstamped). -/
theorem gating_frame_effects (cfg : Config) (st : GatingState)
    (entity : String) (labels : List String) (name : String)
    (old new? : Option String) (now : ℚ) :
    ((old = new? ∨ new? = none ∨ new? = some "unavailable") →
      on_scene_state_changed cfg st entity labels name old new? now =
        (st, false)) ∧
    (¬ (old = new? ∨ new? = none ∨ new? = some "unavailable") →
      (debounce_rejects cfg
          (st.recent_validations.filter
            (fun p => now - cfg.validation_debounce < p.2)) entity now = true →
        on_scene_state_changed cfg st entity labels name old new? now =
          ({ st with recent_validations := (st.recent_validations.filter
              (fun p => now - cfg.validation_debounce < p.2)) }, false)) ∧
      (debounce_rejects cfg
          (st.recent_validations.filter
            (fun p => now - cfg.validation_debounce < p.2)) entity now = false →
        ((circuit_breaker_check cfg st.breaker now).2 = false →
          on_scene_state_changed cfg st entity labels name old new? now =
            ({ st with
                breaker := (circuit_breaker_check cfg st.breaker now).1,
                recent_validations := (st.recent_validations.filter
                  (fun p => now - cfg.validation_debounce < p.2)) }, false)) ∧
        ((circuit_breaker_check cfg st.breaker now).2 = true →
          ∀ rl, check_rate_limits cfg
              { st with
                  breaker := (circuit_breaker_check cfg st.breaker now).1,
                  recent_validations := (st.recent_validations.filter
                    (fun p => now - cfg.validation_debounce < p.2)) }
              entity now = rl →
          ((rl.2 = false →
            on_scene_state_changed cfg st entity labels name old new? now =
              (rl.1, false) ∧
            rl.1.validation_timestamps =
              st.validation_timestamps.filter (fun ts => now - ts < 60) ∧
            rl.1.scene_validation_timestamps =
              prune_scene_windows st.scene_validation_timestamps entity now ∧
            rl.1.recent_validations = st.recent_validations.filter
              (fun p => now - cfg.validation_debounce < p.2)) ∧
          (rl.2 = true → scene_filter cfg none labels name = false →
            on_scene_state_changed cfg st entity labels name old new? now =
              (rl.1, false) ∧
            rl.1.validation_timestamps =
              st.validation_timestamps.filter (fun ts => now - ts < 60)
                ++ [now] ∧
            rl.1.scene_validation_timestamps =
              (prune_scene_windows st.scene_validation_timestamps entity
                now).map
                (fun p => if p.1 == entity then (p.1, p.2 ++ [now]) else p) ∧
            rl.1.recent_validations = st.recent_validations.filter
              (fun p => now - cfg.validation_debounce < p.2)))))) := by
  constructor
  · intro hskip
    rw [on_scene_state_changed, if_pos hskip]
  · intro hskip
    refine ⟨?_, ?_⟩
    · intro hdb
      rw [on_scene_state_changed, if_neg hskip]
      dsimp only
      rw [hdb]
      simp
    · intro hdb
      constructor
      · intro hcb
        rw [on_scene_state_changed, if_neg hskip]
        dsimp only
        rw [hdb]
        simp only [Bool.false_eq_true, if_false]
        rw [should_validate_scene]
        dsimp only
        simp [hcb]
      · intro hcb rl hrl
        have hframe := check_rate_limits_frame cfg
          { st with
              breaker := (circuit_breaker_check cfg st.breaker now).1,
              recent_validations := (st.recent_validations.filter
                (fun p => now - cfg.validation_debounce < p.2)) } entity now
        rw [hrl] at hframe
        constructor
        · intro hrate
          have hrun :
              on_scene_state_changed cfg st entity labels name old new? now =
                (rl.1, false) := by
            rw [on_scene_state_changed, if_neg hskip]
            dsimp only
            rw [hdb]
            simp only [Bool.false_eq_true, if_false]
            rw [should_validate_scene]
            dsimp only
            simp only [hcb, Bool.true_eq_false, if_false, reduceIte, hrl,
              hrate]
            simp
          exact ⟨hrun, (hframe.2.2.1 hrate).1, (hframe.2.2.1 hrate).2,
            hframe.2.1⟩
        · intro hrate hfil
          have hrun :
              on_scene_state_changed cfg st entity labels name old new? now =
                (rl.1, false) := by
            rw [on_scene_state_changed, if_neg hskip]
            dsimp only
            rw [hdb]
            simp only [Bool.false_eq_true, if_false]
            rw [should_validate_scene]
            dsimp only
            simp only [hcb, Bool.true_eq_false, if_false, reduceIte, hrl,
              hrate, hfil]
            simp [hfil]
          exact ⟨hrun, (hframe.2.2.2 hrate).1, (hframe.2.2.2 hrate).2,
            hframe.2.1⟩

/-- Configuration excluding label `skip`. -/
def filterCfg : Config := { defaultConfig with exclude_labels := ["skip"] }

/-- Counterexample to C5 as stated: a candidate that passes breaker,
debounce and rate limits but is rejected by the scene filter (excluded
label) has already appended its timestamp to the global and per-scene
rate windows: they are not merely pruned (initial state had no entries
to prune). -/
theorem gating_filter_reject_records_counterexample :
    (on_scene_state_changed filterCfg gatingInit "scene.a" ["skip"] "A"
      (some "1") (some "2") 100).2 = false ∧
    (on_scene_state_changed filterCfg gatingInit "scene.a" ["skip"] "A"
      (some "1") (some "2") 100).1.validation_timestamps = [100] ∧
    (on_scene_state_changed filterCfg gatingInit "scene.a" ["skip"] "A"
      (some "1") (some "2") 100).1.scene_validation_timestamps =
      [("scene.a", [100])] ∧
    gatingInit.validation_timestamps = [] ∧
    gatingInit.scene_validation_timestamps = [] := by
  decide

/-- Configuration whose global rate limit is zero. -/
def zeroRateCfg : Config := { defaultConfig with max_validations_per_minute := 0 }

/-- Witness for `gating_frame_effects`: a rate-limit rejection leaves
the windows pruned only (the per-scene dict merely gains its empty
entry) and the debounce map untouched. -/
theorem gating_frame_effects_witness :
    on_scene_state_changed zeroRateCfg gatingInit "scene.a" [] "A"
        (some "1") (some "2") 100 =
      (⟨⟨CBState.closed, 0, 0, none⟩, [], [("scene.a", [])], []⟩, false) := by
  have h := (gating_frame_effects zeroRateCfg gatingInit "scene.a" [] "A"
      (some "1") (some "2") 100).2 (by decide)
  have h2 := (h.2 (by decide)).2 (by decide) _ rfl
  have h3 := (h2.1 (by decide)).1
  rw [h3]
  decide

theorem lookup_mem {l : List (String × ℚ)} {e : String} {t : ℚ}
    (h : l.lookup e = some t) : (e, t) ∈ l := by
  induction l with
  | nil => simp [List.lookup] at h
  | cons hd tl ih =>
    rcases hd with ⟨k, v⟩
    rw [List.lookup] at h
    rcases hbeq : (e == k) with _ | _
    · rw [hbeq] at h
      exact List.mem_cons_of_mem _ (ih h)
    · rw [hbeq] at h
      injection h with h
      subst h
      have : e = k := by simpa using hbeq
      subst this
      exact List.mem_cons_self _ _

theorem mem_lookup_of_nodup {l : List (String × ℚ)} {e : String} {t : ℚ}
    (hnd : (l.map Prod.fst).Nodup) (h : (e, t) ∈ l) :
    l.lookup e = some t := by
  induction l with
  | nil => simp at h
  | cons hd tl ih =>
    rcases hd with ⟨k, v⟩
    rw [List.map_cons, List.nodup_cons] at hnd
    rcases List.mem_cons.mp h with heq | hmem
    · injection heq with h1 h2
      subst h1
      subst h2
      simp [List.lookup]
    · rw [List.lookup]
      rcases hbeq : (e == k) with _ | _
      · exact ih hnd.2 hmem
      · exfalso
        have : e = k := by simpa using hbeq
        subst this
        exact hnd.1 (by simpa using List.mem_map_of_mem Prod.fst hmem)

theorem filter_keys_nodup {l : List (String × ℚ)}
    (hnd : (l.map Prod.fst).Nodup) (P : String × ℚ → Bool) :
    ((l.filter P).map Prod.fst).Nodup :=
  ((l.filter_sublist).map Prod.fst).nodup hnd

theorem lookup_filter_of_nodup {l : List (String × ℚ)} {e : String} {t : ℚ}
    (hnd : (l.map Prod.fst).Nodup) (P : String × ℚ → Bool)
    (h : l.lookup e = some t) :
    (l.filter P).lookup e = (if P (e, t) then some t else none) := by
  by_cases hP : P (e, t) = true
  · rw [if_pos hP]
    exact mem_lookup_of_nodup (filter_keys_nodup hnd P)
      (List.mem_filter.mpr ⟨lookup_mem h, hP⟩)
  · rw [if_neg hP]
    rcases hlk : (l.filter P).lookup e with _ | t'
    · rfl
    · exfalso
      have hmem' := List.mem_filter.mp (lookup_mem hlk)
      have : t' = t := by
        have := mem_lookup_of_nodup hnd hmem'.1
        rw [h] at this
        injection this with this
        exact this.symm
      subst this
      exact hP hmem'.2

theorem lookup_filter_none {l : List (String × ℚ)} {e : String}
    (h : l.lookup e = none) (P : String × ℚ → Bool) :
    (l.filter P).lookup e = none := by
  induction l with
  | nil => simp
  | cons hd tl ih =>
    rcases hd with ⟨k, v⟩
    have hbeq : (e == k) = false := by
      rcases hb : (e == k) with _ | _
      · rfl
      · rw [List.lookup, hb] at h
        exact absurd h (by simp)
    rw [List.lookup, hbeq] at h
    rw [List.filter_cons]
    by_cases hP : P (k, v) = true
    · rw [if_pos hP, List.lookup, hbeq]
      exact ih h
    · rw [if_neg hP]
      exact ih h

theorem lookup_map_replace_other {m : List (String × ℚ)} {e k : String}
    (hne : (e == k) = false) (v : ℚ) :
    (m.map (fun p => if p.1 == k then (p.1, v) else p)).lookup e =
      m.lookup e := by
  induction m with
  | nil => rfl
  | cons hd tl ih =>
    rcases hd with ⟨k', v'⟩
    rw [List.map_cons]
    by_cases hk : (k' == k) = true
    · rw [List.lookup]
      simp only [hk, if_true, reduceIte]
      have hek : (e == k') = false := by
        rcases hb : (e == k') with _ | _
        · rfl
        · have h1 : e = k' := by simpa using hb
          have h2 : k' = k := by simpa using hk
          rw [h1, h2] at hne
          simp at hne
      rw [List.lookup, hek]
      exact ih
    · simp only [hk, Bool.false_eq_true, if_false, reduceIte]
      simp only [List.lookup]
      rcases hb : (e == k') with _ | _
      · simp only [hb]
        exact ih
      · simp only [hb]

theorem lookup_map_replace_self {m : List (String × ℚ)} {k : String} (v : ℚ)
    (hany : m.any (fun p => p.1 == k) = true) :
    (m.map (fun p => if p.1 == k then (p.1, v) else p)).lookup k =
      some v := by
  induction m with
  | nil => simp at hany
  | cons hd tl ih =>
    rcases hd with ⟨k', v'⟩
    rw [List.map_cons]
    by_cases hk : (k' == k) = true
    · have hkk : (k == k') = true := by
        have : k' = k := by simpa using hk
        simp [this]
      simp only [hk, if_true, reduceIte]
      rw [List.lookup, hkk]
    · simp only [hk, Bool.false_eq_true, if_false, reduceIte]
      rw [List.lookup]
      have hek : (k == k') = false := by
        rcases hb : (k == k') with _ | _
        · rfl
        · exfalso
          have : k = k' := by simpa using hb
          rw [this] at hk
          simp at hk
      rw [hek]
      apply ih
      rcases List.any_eq_true.mp hany with ⟨p, hp, hpk⟩
      rcases List.mem_cons.mp hp with rfl | hmem
      · simp only at hpk
        exact absurd hpk hk
      · exact List.any_eq_true.mpr ⟨p, hmem, hpk⟩

theorem any_false_lookup_none {m : List (String × ℚ)} {k : String}
    (hany : m.any (fun p => p.1 == k) = false) : m.lookup k = none := by
  induction m with
  | nil => rfl
  | cons hd tl ih =>
    rcases hd with ⟨k', v'⟩
    rw [List.any_cons] at hany
    rcases Bool.or_eq_false_iff.mp hany with ⟨h1, h2⟩
    rw [List.lookup]
    have : (k == k') = false := by
      rcases hb : (k == k') with _ | _
      · rfl
      · simp only at h1
        have : k = k' := by simpa using hb
        rw [this] at h1
        simp at h1
    rw [this]
    exact ih h2

theorem lookup_append_single_self {m : List (String × ℚ)} {k : String}
    (hnone : m.lookup k = none) (v : ℚ) :
    (m ++ [(k, v)]).lookup k = some v := by
  induction m with
  | nil => simp [List.lookup]
  | cons hd tl ih =>
    rcases hd with ⟨k', v'⟩
    rw [List.lookup] at hnone
    rcases hb : (k == k') with _ | _
    · rw [hb] at hnone
      rw [List.cons_append, List.lookup, hb]
      exact ih hnone
    · rw [hb] at hnone
      exact Option.noConfusion hnone

theorem lookup_append_single_other {m : List (String × ℚ)} {e k : String}
    (hne : (e == k) = false) (v : ℚ) :
    (m ++ [(k, v)]).lookup e = m.lookup e := by
  induction m with
  | nil => simp [List.lookup, hne]
  | cons hd tl ih =>
    rcases hd with ⟨k', v'⟩
    rw [List.cons_append, List.lookup, List.lookup]
    rcases hb : (e == k') with _ | _
    · exact ih
    · rfl

theorem dictInsert_lookup_self (m : List (String × ℚ)) (k : String) (v : ℚ) :
    (dictInsert m k v).lookup k = some v := by
  rw [dictInsert]
  by_cases hany : m.any (fun p => p.1 == k) = true
  · rw [if_pos hany]
    exact lookup_map_replace_self v hany
  · rw [if_neg hany]
    exact lookup_append_single_self
      (any_false_lookup_none (Bool.not_eq_true _ ▸ eq_false_of_ne_true hany)) v

theorem dictInsert_lookup_other {m : List (String × ℚ)} {e k : String}
    (hne : e ≠ k) (v : ℚ) :
    (dictInsert m k v).lookup e = m.lookup e := by
  have hbeq : (e == k) = false := by
    rcases hb : (e == k) with _ | _
    · rfl
    · exact absurd (by simpa using hb) hne
  rw [dictInsert]
  by_cases hany : m.any (fun p => p.1 == k) = true
  · rw [if_pos hany]
    exact lookup_map_replace_other hbeq v
  · rw [if_neg hany]
    exact lookup_append_single_other hbeq v

theorem dictInsert_keys_nodup {m : List (String × ℚ)} (k : String) (v : ℚ)
    (hnd : (m.map Prod.fst).Nodup) :
    ((dictInsert m k v).map Prod.fst).Nodup := by
  rw [dictInsert]
  by_cases hany : m.any (fun p => p.1 == k) = true
  · rw [if_pos hany]
    have : (m.map (fun p => if p.1 == k then (p.1, v) else p)).map Prod.fst =
        m.map Prod.fst := by
      rw [List.map_map]
      apply List.map_congr_left
      intro p _
      simp only [Function.comp]
      split <;> rfl
    rw [this]
    exact hnd
  · rw [if_neg hany]
    rw [List.map_append]
    apply List.Nodup.append hnd (by simp)
    intro a ha hb
    simp only [List.map_cons, List.map_nil, List.mem_singleton] at hb
    subst hb
    rcases List.mem_map.mp ha with ⟨p, hp, hpk⟩
    apply hany
    exact List.any_eq_true.mpr ⟨p, hp, by simp [hpk]⟩

theorem last_accepted_append_self (acc : List (String × ℚ)) (e : String)
    (t : ℚ) : last_accepted (acc ++ [(e, t)]) e = some t := by
  rw [last_accepted, List.filter_append, List.map_append]
  simp [last_accepted]

theorem last_accepted_append_other (acc : List (String × ℚ)) {e e' : String}
    (t : ℚ) (hne : e' ≠ e) :
    last_accepted (acc ++ [(e, t)]) e' = last_accepted acc e' := by
  rw [last_accepted, List.filter_append, last_accepted]
  have : List.filter (fun p => p.1 == e') [(e, t)] = [] := by
    simp [hne.symm]
  rw [this, List.append_nil]

theorem mem_of_getLast_some {α : Type} {l : List α} {a : α}
    (h : l.getLast? = some a) : a ∈ l := by
  rcases List.getLast?_eq_some_iff.mp h with ⟨ys, rfl⟩
  simp

theorem last_accepted_mem {acc : List (String × ℚ)} {e : String} {t : ℚ}
    (h : last_accepted acc e = some t) : (e, t) ∈ acc := by
  rw [last_accepted] at h
  have hmem := mem_of_getLast_some h
  rcases List.mem_map.mp hmem with ⟨p, hp, hpt⟩
  have hfil := List.mem_filter.mp hp
  have hfst : p.1 = e := by simpa using hfil.2
  have : p = (e, t) := by
    rcases p with ⟨p1, p2⟩
    simp only at hpt hfst
    rw [hfst, hpt]
  rw [← this]
  exact hfil.1

theorem last_accepted_isSome_of_mem {acc : List (String × ℚ)} {e : String}
    {t : ℚ} (h : (e, t) ∈ acc) : ∃ t', last_accepted acc e = some t' := by
  rw [last_accepted]
  have hmem : t ∈ (acc.filter (fun p => p.1 == e)).map (fun p => p.2) :=
    List.mem_map.mpr ⟨(e, t), List.mem_filter.mpr ⟨h, by simp⟩, rfl⟩
  rcases hlast : ((acc.filter (fun p => p.1 == e)).map (fun p => p.2)).getLast?
    with _ | t'
  · rw [List.getLast?_eq_none_iff] at hlast
    rw [hlast] at hmem
    simp at hmem
  · exact ⟨t', hlast⟩

theorem pairwise_le_getLast {l : List ℚ} (hp : l.Pairwise (· ≤ ·)) {x : ℚ}
    (hx : x ∈ l) {y : ℚ} (hy : l.getLast? = some y) : x ≤ y := by
  rcases List.getLast?_eq_some_iff.mp hy with ⟨ys, rfl⟩
  rcases List.mem_append.mp hx with hmem | hmem
  · exact (List.pairwise_append.mp hp).2.2 x hmem y (by simp)
  · simp only [List.mem_singleton] at hmem
    rw [hmem]

theorem le_last_accepted {acc : List (String × ℚ)} {e : String} {t t' : ℚ}
    (hmono : (acc.map Prod.snd).Pairwise (· ≤ ·))
    (hmem : (e, t) ∈ acc) (hlast : last_accepted acc e = some t') : t ≤ t' := by
  rw [last_accepted] at hlast
  have hsub : ((acc.filter (fun p => p.1 == e)).map (fun p => p.2)).Sublist
      (acc.map Prod.snd) :=
    (acc.filter_sublist).map _
  have hp : ((acc.filter (fun p => p.1 == e)).map (fun p => p.2)).Pairwise
      (· ≤ ·) := hmono.sublist hsub
  apply pairwise_le_getLast hp _ hlast
  exact List.mem_map.mpr ⟨(e, t), List.mem_filter.mpr ⟨hmem, by simp⟩, rfl⟩

theorem should_validate_scene_recent (cfg : Config) (st : GatingState)
    (entity : String) (scene_uid : Option String) (labels : List String)
    (name : String) (now : ℚ) :
    (should_validate_scene cfg st entity scene_uid labels name now).1.recent_validations =
      st.recent_validations := by
  rw [should_validate_scene]
  dsimp only
  split
  · rfl
  · split
    · exact (check_rate_limits_frame cfg _ entity now).2.1
    · exact (check_rate_limits_frame cfg _ entity now).2.1

/-- Inductive invariant of the gating layer relating the debounce map,
the accepted-activation history `acc`, and the latest processed trigger
time `T`. -/
structure GInv (cfg : Config) (T : ℚ) (st : GatingState)
    (acc : List (String × ℚ)) : Prop where
  nodup : (st.recent_validations.map Prod.fst).Nodup
  complete : ∀ e t, st.recent_validations.lookup e = some t →
    last_accepted acc e = some t
  tracked : ∀ e t, last_accepted acc e = some t →
    t ≤ T ∧ (st.recent_validations.lookup e = some t ∨
      cfg.validation_debounce ≤ T - t)
  bounded : ∀ p ∈ acc, p.2 ≤ T
  mono : (acc.map Prod.snd).Pairwise (· ≤ ·)
  gaps : acc.Pairwise (fun p q => p.1 = q.1 →
    cfg.validation_debounce ≤ q.2 - p.2)

theorem GInv_init (cfg : Config) (T : ℚ) : GInv cfg T gatingInit [] := by
  constructor
  · simp [gatingInit]
  · intro e t h
    simp [gatingInit, List.lookup] at h
  · intro e t h
    simp [last_accepted] at h
  · simp
  · simp
  · simp

theorem on_scene_state_changed_skip (cfg : Config) (st : GatingState)
    (entity : String) (labels : List String) (name : String)
    (old new? : Option String) (now : ℚ)
    (hskip : old = new? ∨ new? = none ∨ new? = some "unavailable") :
    on_scene_state_changed cfg st entity labels name old new? now =
      (st, false) := by
  rw [on_scene_state_changed, if_pos hskip]

theorem on_scene_state_changed_debounced (cfg : Config) (st : GatingState)
    (entity : String) (labels : List String) (name : String)
    (old new? : Option String) (now : ℚ)
    (hskip : ¬ (old = new? ∨ new? = none ∨ new? = some "unavailable"))
    (hdb : debounce_rejects cfg
      (st.recent_validations.filter
        (fun p => now - cfg.validation_debounce < p.2)) entity now = true) :
    on_scene_state_changed cfg st entity labels name old new? now =
      ({ st with recent_validations := (st.recent_validations.filter
        (fun p => now - cfg.validation_debounce < p.2)) }, false) := by
  rw [on_scene_state_changed, if_neg hskip]
  dsimp only
  rw [hdb]
  simp

theorem on_scene_state_changed_go (cfg : Config) (st : GatingState)
    (entity : String) (labels : List String) (name : String)
    (old new? : Option String) (now : ℚ)
    (hskip : ¬ (old = new? ∨ new? = none ∨ new? = some "unavailable"))
    (hdb : debounce_rejects cfg
      (st.recent_validations.filter
        (fun p => now - cfg.validation_debounce < p.2)) entity now = false) :
    on_scene_state_changed cfg st entity labels name old new? now =
      (if (should_validate_scene cfg
            { st with recent_validations := (st.recent_validations.filter
              (fun p => now - cfg.validation_debounce < p.2)) }
            entity none labels name now).2 then
        ({ (should_validate_scene cfg
              { st with recent_validations := (st.recent_validations.filter
                (fun p => now - cfg.validation_debounce < p.2)) }
              entity none labels name now).1 with
            recent_validations := (dictInsert (should_validate_scene cfg
              { st with recent_validations := (st.recent_validations.filter
                (fun p => now - cfg.validation_debounce < p.2)) }
              entity none labels name now).1.recent_validations entity now) },
         true)
       else
        ((should_validate_scene cfg
            { st with recent_validations := (st.recent_validations.filter
              (fun p => now - cfg.validation_debounce < p.2)) }
            entity none labels name now).1, false)) := by
  rw [on_scene_state_changed, if_neg hskip]
  dsimp only
  rw [hdb]
  simp

theorem lookup_filter_some_imp {l : List (String × ℚ)}
    {P : String × ℚ → Bool} {e : String} {t : ℚ}
    (hnd : (l.map Prod.fst).Nodup) (h : (l.filter P).lookup e = some t) :
    l.lookup e = some t :=
  mem_lookup_of_nodup hnd (List.mem_filter.mp (lookup_mem h)).1

theorem GInv_mono_time {cfg : Config} {T T' : ℚ} {st : GatingState}
    {acc : List (String × ℚ)} (h : GInv cfg T st acc) (hle : T ≤ T') :
    GInv cfg T' st acc := by
  constructor
  · exact h.nodup
  · exact h.complete
  · intro e t ht
    rcases h.tracked e t ht with ⟨h1, h2⟩
    refine ⟨h1.trans hle, ?_⟩
    rcases h2 with h2 | h2
    · exact Or.inl h2
    · exact Or.inr (h2.trans (by linarith))
  · intro p hp
    exact (h.bounded p hp).trans hle
  · exact h.mono
  · exact h.gaps

theorem GInv_prune {cfg : Config} {T now : ℚ} {st st' : GatingState}
    {acc : List (String × ℚ)} (hinv : GInv cfg T st acc) (hT : T ≤ now)
    (hrec : st'.recent_validations = st.recent_validations.filter
      (fun p => now - cfg.validation_debounce < p.2)) :
    GInv cfg now st' acc := by
  constructor
  · rw [hrec]
    exact filter_keys_nodup hinv.nodup _
  · intro e t h
    rw [hrec] at h
    exact hinv.complete e t (lookup_filter_some_imp hinv.nodup h)
  · intro e t ht
    rcases hinv.tracked e t ht with ⟨h1, h2⟩
    refine ⟨h1.trans hT, ?_⟩
    rcases h2 with h2 | h2
    · by_cases hsurv : now - cfg.validation_debounce < t
      · left
        rw [hrec]
        rw [lookup_filter_of_nodup hinv.nodup _ h2]
        simp [hsurv]
      · right
        linarith
    · right
      linarith
  · intro p hp
    exact (hinv.bounded p hp).trans hT
  · exact hinv.mono
  · exact hinv.gaps

theorem accept_gap {cfg : Config} {T now : ℚ} {st : GatingState}
    {acc : List (String × ℚ)} (hinv : GInv cfg T st acc) (hT : T ≤ now)
    (entity : String) {t_last : ℚ}
    (hlast : last_accepted acc entity = some t_last)
    (hdb : debounce_rejects cfg
      (st.recent_validations.filter
        (fun p => now - cfg.validation_debounce < p.2)) entity now = false) :
    cfg.validation_debounce ≤ now - t_last := by
  rcases hinv.tracked entity t_last hlast with ⟨h1, h2⟩
  rcases h2 with hlk | hge
  · by_cases hsurv : now - cfg.validation_debounce < t_last
    · have hplk : (st.recent_validations.filter
          (fun p => now - cfg.validation_debounce < p.2)).lookup entity =
            some t_last := by
        rw [lookup_filter_of_nodup hinv.nodup _ hlk]
        simp [hsurv]
      rw [debounce_rejects, hplk] at hdb
      simp at hdb
      linarith
    · linarith
  · linarith

theorem GInv_accept {cfg : Config} {T now : ℚ} {st st' : GatingState}
    {acc : List (String × ℚ)} (entity : String)
    (hinv : GInv cfg T st acc) (hT : T ≤ now)
    (hdb : debounce_rejects cfg
      (st.recent_validations.filter
        (fun p => now - cfg.validation_debounce < p.2)) entity now = false)
    (hrec : st'.recent_validations = dictInsert
      (st.recent_validations.filter
        (fun p => now - cfg.validation_debounce < p.2)) entity now) :
    GInv cfg now st' (acc ++ [(entity, now)]) := by
  have hndp : ((st.recent_validations.filter
      (fun p => now - cfg.validation_debounce < p.2)).map Prod.fst).Nodup :=
    filter_keys_nodup hinv.nodup _
  constructor
  · rw [hrec]
    exact dictInsert_keys_nodup _ _ hndp
  · intro e t h
    rw [hrec] at h
    by_cases he : e = entity
    · subst he
      rw [dictInsert_lookup_self] at h
      injection h with h
      subst h
      exact last_accepted_append_self acc e now
    · rw [dictInsert_lookup_other he] at h
      rw [last_accepted_append_other acc now he]
      exact hinv.complete e t (lookup_filter_some_imp hinv.nodup h)
  · intro e t ht
    by_cases he : e = entity
    · subst he
      rw [last_accepted_append_self] at ht
      injection ht with ht
      subst ht
      refine ⟨le_refl _, Or.inl ?_⟩
      rw [hrec]
      exact dictInsert_lookup_self _ _ _
    · rw [last_accepted_append_other acc now he] at ht
      rcases hinv.tracked e t ht with ⟨h1, h2⟩
      refine ⟨h1.trans hT, ?_⟩
      rcases h2 with hlk | hge
      · by_cases hsurv : now - cfg.validation_debounce < t
        · left
          rw [hrec, dictInsert_lookup_other he,
            lookup_filter_of_nodup hinv.nodup _ hlk]
          simp [hsurv]
        · right
          linarith
      · right
        linarith
  · intro p hp
    rcases List.mem_append.mp hp with hp | hp
    · exact (hinv.bounded p hp).trans hT
    · simp only [List.mem_singleton] at hp
      rw [hp]
  · rw [List.map_append]
    refine List.pairwise_append.mpr ⟨hinv.mono, by simp, ?_⟩
    intro x hx y hy
    simp only [List.map_cons, List.map_nil, List.mem_singleton] at hy
    subst hy
    rcases List.mem_map.mp hx with ⟨p, hp, rfl⟩
    exact (hinv.bounded p hp).trans hT
  · refine List.pairwise_append.mpr ⟨hinv.gaps, by simp, ?_⟩
    intro p hp q hq
    simp only [List.mem_singleton] at hq
    subst hq
    intro hpe
    simp only at hpe ⊢
    have hmem : (entity, p.2) ∈ acc := by
      rw [← hpe]
      exact hp
    rcases last_accepted_isSome_of_mem hmem with ⟨t_last, hlast⟩
    have hple : p.2 ≤ t_last := le_last_accepted hinv.mono hmem hlast
    have hgap : cfg.validation_debounce ≤ now - t_last :=
      accept_gap hinv hT entity hlast hdb
    linarith

theorem process_trigger_inv (cfg : Config) (T : ℚ) (st : GatingState)
    (acc : List (String × ℚ)) (tr : Trigger)
    (hinv : GInv cfg T st acc) (hT : T ≤ tr.now) :
    GInv cfg tr.now (process_trigger cfg st tr).1
      (acc ++ (if (process_trigger cfg st tr).2 then [(tr.entity, tr.now)]
        else [])) := by
  by_cases hskip : (tr.oldState = tr.newState ∨ tr.newState = none ∨
      tr.newState = some "unavailable")
  · have heq : process_trigger cfg st tr = (st, false) :=
      on_scene_state_changed_skip cfg st tr.entity tr.labels tr.name
        tr.oldState tr.newState tr.now hskip
    rw [heq]
    simp only [Bool.false_eq_true, if_false, List.append_nil]
    exact GInv_mono_time hinv hT
  · by_cases hdb : debounce_rejects cfg
        (st.recent_validations.filter
          (fun p => tr.now - cfg.validation_debounce < p.2)) tr.entity
        tr.now = true
    · have heq : process_trigger cfg st tr =
          ({ st with recent_validations := (st.recent_validations.filter
            (fun p => tr.now - cfg.validation_debounce < p.2)) }, false) :=
        on_scene_state_changed_debounced cfg st tr.entity tr.labels tr.name
          tr.oldState tr.newState tr.now hskip hdb
      rw [heq]
      simp only [Bool.false_eq_true, if_false, List.append_nil]
      exact GInv_prune hinv hT rfl
    · rw [Bool.not_eq_true] at hdb
      have heq := on_scene_state_changed_go cfg st tr.entity tr.labels tr.name
        tr.oldState tr.newState tr.now hskip hdb
      have hrec : (should_validate_scene cfg
          { st with recent_validations := (st.recent_validations.filter
            (fun p => tr.now - cfg.validation_debounce < p.2)) }
          tr.entity none tr.labels tr.name tr.now).1.recent_validations =
          st.recent_validations.filter
            (fun p => tr.now - cfg.validation_debounce < p.2) :=
        should_validate_scene_recent cfg _ tr.entity none tr.labels tr.name
          tr.now
      by_cases hsv : (should_validate_scene cfg
          { st with recent_validations := (st.recent_validations.filter
            (fun p => tr.now - cfg.validation_debounce < p.2)) }
          tr.entity none tr.labels tr.name tr.now).2 = true
      · have heq' : process_trigger cfg st tr =
            ({ (should_validate_scene cfg
                { st with recent_validations := (st.recent_validations.filter
                  (fun p => tr.now - cfg.validation_debounce < p.2)) }
                tr.entity none tr.labels tr.name tr.now).1 with
              recent_validations := (dictInsert (should_validate_scene cfg
                { st with recent_validations := (st.recent_validations.filter
                  (fun p => tr.now - cfg.validation_debounce < p.2)) }
                tr.entity none tr.labels tr.name tr.now).1.recent_validations
                tr.entity tr.now) }, true) := by
          have hpt : process_trigger cfg st tr = on_scene_state_changed cfg
              st tr.entity tr.labels tr.name tr.oldState tr.newState tr.now :=
            rfl
          rw [hpt, heq, if_pos hsv]
        rw [heq']
        simp only [if_true, reduceIte, List.append_nil]
        apply GInv_accept tr.entity hinv hT hdb
        simp only
        rw [hrec]
      · have heq' : process_trigger cfg st tr =
            ((should_validate_scene cfg
              { st with recent_validations := (st.recent_validations.filter
                (fun p => tr.now - cfg.validation_debounce < p.2)) }
              tr.entity none tr.labels tr.name tr.now).1, false) := by
          have hpt : process_trigger cfg st tr = on_scene_state_changed cfg
              st tr.entity tr.labels tr.name tr.oldState tr.newState tr.now :=
            rfl
          rw [hpt, heq, if_neg hsv]
        rw [heq']
        simp only [Bool.false_eq_true, if_false, List.append_nil]
        exact GInv_prune hinv hT hrec

theorem run_triggers_inv (cfg : Config) :
    ∀ (trs : List Trigger) (T : ℚ) (st : GatingState)
      (acc : List (String × ℚ)),
      GInv cfg T st acc →
      (∀ tr ∈ trs, T ≤ tr.now) →
      List.Pairwise (fun a b => a.now ≤ b.now) trs →
      ∃ T', GInv cfg T' (run_triggers cfg st trs).1
          (acc ++ (run_triggers cfg st trs).2) ∧
        (T' = T ∨ ∃ tr ∈ trs, T' = tr.now) := by
  intro trs
  induction trs with
  | nil =>
    intro T st acc hinv _ _
    exact ⟨T, by simpa [run_triggers] using hinv, Or.inl rfl⟩
  | cons tr rest ih =>
    intro T st acc hinv hge hpw
    rw [List.pairwise_cons] at hpw
    have hstep := process_trigger_inv cfg T st acc tr hinv
      (hge tr (List.mem_cons_self _ _))
    obtain ⟨T', hI, hT'⟩ := ih tr.now (process_trigger cfg st tr).1 _ hstep
      hpw.1 hpw.2
    refine ⟨T', ?_, ?_⟩
    · rw [run_triggers]
      dsimp only
      rw [List.append_assoc] at hI
      exact hI
    · rcases hT' with rfl | ⟨tr', htr', rfl⟩
      · exact Or.inr ⟨tr, List.mem_cons_self _ _, rfl⟩
      · exact Or.inr ⟨tr', List.mem_cons_of_mem _ htr', rfl⟩

theorem process_trigger_reject {cfg : Config} {T : ℚ} {st : GatingState}
    {acc : List (String × ℚ)} {tr : Trigger}
    (hinv : GInv cfg T st acc) (hT : T ≤ tr.now)
    {t1 : ℚ} (hlast : last_accepted acc tr.entity = some t1)
    (hlt : tr.now - t1 < cfg.validation_debounce) :
    (process_trigger cfg st tr).2 = false := by
  by_cases hskip : (tr.oldState = tr.newState ∨ tr.newState = none ∨
      tr.newState = some "unavailable")
  · have heq : process_trigger cfg st tr = (st, false) :=
      on_scene_state_changed_skip cfg st tr.entity tr.labels tr.name
        tr.oldState tr.newState tr.now hskip
    rw [heq]
  · rcases hinv.tracked tr.entity t1 hlast with ⟨h1, h2⟩
    rcases h2 with hlk | hge
    · have hsurv : tr.now - cfg.validation_debounce < t1 := by linarith
      have hplk : (st.recent_validations.filter
          (fun p => tr.now - cfg.validation_debounce < p.2)).lookup tr.entity =
            some t1 := by
        rw [lookup_filter_of_nodup hinv.nodup _ hlk]
        simp [hsurv]
      have hdb : debounce_rejects cfg
          (st.recent_validations.filter
            (fun p => tr.now - cfg.validation_debounce < p.2)) tr.entity
          tr.now = true := by
        rw [debounce_rejects, hplk]
        simp [hlt]
      have heq : process_trigger cfg st tr =
          ({ st with recent_validations := (st.recent_validations.filter
            (fun p => tr.now - cfg.validation_debounce < p.2)) }, false) :=
        on_scene_state_changed_debounced cfg st tr.entity tr.labels tr.name
          tr.oldState tr.newState tr.now hskip hdb
      rw [heq]
    · linarith

/-- C7.  Debounce monotonicity: processing any nondecreasing trigger
sequence from a fresh gating state, any two accepted activations of the
same scene entity are at least `debounce_window` apart; and a trigger
for a scene arriving strictly within `debounce_window` of that scene's
last accepted activation is rejected. -/
theorem debounce_window_enforced (cfg : Config) (trs : List Trigger)
    (hmono : List.Pairwise (fun a b => a.now ≤ b.now) trs) :
    ((run_triggers cfg gatingInit trs).2).Pairwise
      (fun p q => p.1 = q.1 → cfg.validation_debounce ≤ q.2 - p.2) ∧
    (∀ pre tr rest, trs = pre ++ tr :: rest →
      ∀ t1, last_accepted (run_triggers cfg gatingInit pre).2 tr.entity =
        some t1 →
      tr.now - t1 < cfg.validation_debounce →
      (process_trigger cfg (run_triggers cfg gatingInit pre).1 tr).2 =
        false) := by
  constructor
  · rcases htrs : trs with _ | ⟨tr0, rest⟩
    · simp [run_triggers]
    · rw [htrs] at hmono
      have hge : ∀ tr ∈ tr0 :: rest, tr0.now ≤ tr.now := by
        intro tr htr
        rcases List.mem_cons.mp htr with rfl | hmem
        · exact le_refl _
        · exact (List.pairwise_cons.mp hmono).1 tr hmem
      obtain ⟨T', hI, _⟩ := run_triggers_inv cfg (tr0 :: rest) tr0.now
        gatingInit [] (GInv_init cfg tr0.now) hge hmono
      simpa using hI.gaps
  · intro pre tr rest heq t1 hlast hlt
    subst heq
    rcases List.pairwise_append.mp hmono with ⟨hpre, hpost, hcross⟩
    rcases pre with _ | ⟨p0, pre'⟩
    · simp [run_triggers, last_accepted] at hlast
    · have hge : ∀ p ∈ p0 :: pre', p0.now ≤ p.now := by
        intro p hp
        rcases List.mem_cons.mp hp with rfl | hmem
        · exact le_refl _
        · exact (List.pairwise_cons.mp hpre).1 p hmem
      obtain ⟨T', hI, hT'⟩ := run_triggers_inv cfg (p0 :: pre') p0.now
        gatingInit [] (GInv_init cfg p0.now) hge hpre
      have hT'le : T' ≤ tr.now := by
        rcases hT' with rfl | ⟨tr', htr', rfl⟩
        · exact hcross p0 (List.mem_cons_self _ _) tr
            (List.mem_cons_self _ _)
        · exact hcross tr' htr' tr (List.mem_cons_self _ _)
      rw [List.nil_append] at hI
      exact process_trigger_reject hI hT'le hlast hlt

/-- A trigger for `scene.s` at time `t` with a fresh activation stamp. -/
def sceneTrigger (t : ℚ) : Trigger :=
  ⟨"scene.s", [], "S", some "1", some "2", t⟩

/-- Witness for `debounce_window_enforced`: with the scene accepted at
t = 0, a second trigger at t = 20 (inside the 30 s window) is
rejected. -/
theorem debounce_window_enforced_witness :
    (process_trigger defaultConfig
      (run_triggers defaultConfig gatingInit [sceneTrigger 0]).1
      (sceneTrigger 20)).2 = false := by
  have h := (debounce_window_enforced defaultConfig
      [sceneTrigger 0, sceneTrigger 20]
      (by simp [List.pairwise_cons, sceneTrigger])).2
    [sceneTrigger 0] (sceneTrigger 20) [] rfl 0 (by decide) (by decide)
  exact h
